import Mathlib

set_option autoImplicit false

/-!
Shallow embedding, over exact rational arithmetic, of the 2D WebGPU renderer
(`src/wasm/src/WebGPURenderer.cpp`) and the device-acquisition callback logic
(`src/wasm/src/WebGPUContext.cpp`) of BespokeSynth_WASM.

Modelling conventions:

* C++ `float` values are modelled as exact rationals (`ℚ`); float literals of
  the source (`0.0001f`, `6.28318530f`, ...) become the corresponding rational
  literals.
* `cosf`/`sinf` are kept abstract: every operation that evaluates them takes
  functions `cosQ sinQ : ℚ → ℚ` as parameters, so theorems hold for every
  interpretation of the trigonometric functions.
* GPU pipeline handles (`WGPURenderPipeline`) are opaque distinct pointers in
  the source; they are modelled as distinct natural numbers.
* `flushBatch` models the nominal path in which `mContext.beginFrame()` returns
  a usable render pass: a flush of a non-empty vertex batch performs exactly one
  `wgpuRenderPassEncoderDraw` submission, counted by the `submissions` field.
* `WebGPURenderer::stroke` runs `for (size_t i = 0; i < mPathPoints.size() - 2;
  i += 2)`.  The bound is computed in `size_t`, so for an empty path it wraps
  to `2^64 - 2` and the first iteration reads `mPathPoints[0..3]` out of range.
  The model sets the `ub` flag exactly when the C++ loop performs such an
  out-of-range `std::vector` read.
* `mPathPoints` is a flat `std::vector<float>` to which points are always
  appended in (x, y) pairs (four floats, i.e. two points, per recorded
  segment); it is modelled as a `List (ℚ × ℚ)` of points, one list entry per
  (x, y) pair of the source vector.
* The renderer source uses `HALF_PI` which the C++ of the repository never
  defines (only the WGSL shader string defines it, as `1.57079632`); the
  embedding uses that value.
-/

/-- Color (`struct Color` of WebGPURenderer.h): four float channels r, g, b, a. -/
structure Color where
  r : ℚ
  g : ℚ
  b : ℚ
  a : ℚ
deriving Repr, DecidableEq

/-- Vertex (`struct Vertex2D` of WebGPURenderer.h): position, texcoord, color. -/
structure Vertex2D where
  x : ℚ
  y : ℚ
  u : ℚ
  v : ℚ
  color : Color
deriving Repr, DecidableEq

/-- Affine transform `float transform[6]` of `WebGPURenderer::State`;
`t0 … t5` are the array slots `transform[0] … transform[5]`. -/
structure Transform2D where
  t0 : ℚ
  t1 : ℚ
  t2 : ℚ
  t3 : ℚ
  t4 : ℚ
  t5 : ℚ
deriving Repr, DecidableEq

/-- Identity matrix, as written by `WebGPURenderer::reset` and
`WebGPURenderer::resetTransform`. -/
def idTransform : Transform2D := ⟨1, 0, 0, 1, 0, 0⟩

/-- Application of the 6-float affine matrix to a point, exactly as
`WebGPURenderer::transformPoint` computes it:
`tx = t0*x + t2*y + t4`, `ty = t1*x + t3*y + t5`. -/
def applyT (m : Transform2D) (p : ℚ × ℚ) : ℚ × ℚ :=
  (m.t0 * p.1 + m.t2 * p.2 + m.t4, m.t1 * p.1 + m.t3 * p.2 + m.t5)

/-- Matrix update of `WebGPURenderer::translate`: the source adds `x`/`y`
directly to the translation slots `transform[4]`/`transform[5]`. -/
def translateT (x y : ℚ) (m : Transform2D) : Transform2D :=
  { m with t4 := m.t4 + x, t5 := m.t5 + y }

/-- Matrix update of `WebGPURenderer::rotate`, with `cs`/`sn` the values the
source computes as `cosf(angle)`/`sinf(angle)`. -/
def rotateT (cs sn : ℚ) (m : Transform2D) : Transform2D :=
  ⟨m.t0 * cs - m.t2 * sn, m.t1 * cs - m.t3 * sn,
   m.t0 * sn + m.t2 * cs, m.t1 * sn + m.t3 * cs, m.t4, m.t5⟩

/-- Matrix update of `WebGPURenderer::scale`. -/
def scaleT (x y : ℚ) (m : Transform2D) : Transform2D :=
  { m with t0 := m.t0 * x, t1 := m.t1 * x, t2 := m.t2 * y, t3 := m.t3 * y }

/-- Draw state (`struct State` of WebGPURenderer.h): transform, fill color,
stroke color, stroke width, scissor rect `float scissor[4]` and flag. -/
structure DrawState where
  transform : Transform2D
  fillColor : Color
  strokeColor : Color
  strokeWidth : ℚ
  scissorX : ℚ
  scissorY : ℚ
  scissorW : ℚ
  scissorH : ℚ
  hasScissor : Bool
deriving Repr, DecidableEq

/-- Point transformation `WebGPURenderer::transformPoint`, reading the current
draw state's matrix. -/
def transformPoint (s : DrawState) (p : ℚ × ℚ) : ℚ × ℚ :=
  applyT s.transform p

/-- Scissor-independent part of a draw state: everything the drawing and
flushing code can read (transform, colors, stroke width).  Used to express
that the scissor fields are write-only. -/
structure CoreState where
  transform : Transform2D
  fillColor : Color
  strokeColor : Color
  strokeWidth : ℚ
deriving Repr, DecidableEq

/-- Projection of a draw state to its scissor-independent part. -/
def DrawState.core (s : DrawState) : CoreState :=
  ⟨s.transform, s.fillColor, s.strokeColor, s.strokeWidth⟩

/-- Pipeline handles are opaque `WGPURenderPipeline` pointers; distinct
pipelines of the pipeline table are modelled as distinct naturals. -/
abbrev Pipeline := ℕ

/-- Handle of `mPipelines.solid`. -/
def pipeSolid : Pipeline := 0

/-- Handle of `mStrokePipeline`. -/
def pipeStroke : Pipeline := 1

/-- Handle of `mPipelines.scope_grid`. -/
def pipeScopeGrid : Pipeline := 2

/-- Handle of `mPipelines.spectrum_bar`. -/
def pipeSpectrumBar : Pipeline := 3

/-- Handle of `mPipelines.spectrum_peak`. -/
def pipeSpectrumPeak : Pipeline := 4

/-- Constant `kArcTessellationFactor = 4` (WebGPURenderer.cpp line 23). -/
def kArcTessellationFactor : ℚ := 4

/-- Constant `PI = 3.14159265f` (WebGPURenderer.cpp line 25). -/
def PI : ℚ := 3.14159265

/-- Constant `TWO_PI = 6.28318530f` (WebGPURenderer.cpp line 26). -/
def TWO_PI : ℚ := 6.2831853

/-- Value of `HALF_PI` (`1.57079632`, from the shader constant; see the file
header note). -/
def HALF_PI : ℚ := 1.57079632

/-- C `static_cast<int>` truncation toward zero of a rational. -/
def ctrunc (q : ℚ) : ℤ := if 0 ≤ q then ⌊q⌋ else -⌊-q⌋

/-- Renderer state: the mutable members of `class WebGPURenderer` the drawing
API touches, plus two observables: `submissions` counts GPU draw submissions
(`wgpuRenderPassEncoderDraw` calls made by `flushBatch`), and `ub` records
that an out-of-range `mPathPoints` read happened (see file header). -/
structure WebGPURenderer where
  vertices : List Vertex2D
  stateStack : List DrawState
  currentState : DrawState
  pathPoints : List (ℚ × ℚ)
  pathStart : ℚ × ℚ
  pathCur : ℚ × ℚ
  pathHasStart : Bool
  currentPipeline : Pipeline
  submissions : ℕ
  ub : Bool
deriving Repr, DecidableEq

namespace WebGPURenderer

/-- Method `save`: pushes a full copy of the current draw state. -/
def save (r : WebGPURenderer) : WebGPURenderer :=
  { r with stateStack := r.currentState :: r.stateStack }

/-- Method `restore`: pops the stack if non-empty, else does nothing. -/
def restore (r : WebGPURenderer) : WebGPURenderer :=
  match r.stateStack with
  | [] => r
  | s :: rest => { r with currentState := s, stateStack := rest }

/-- Method `reset`: restores the default transform, colors, width and hasScissor
flag.  The source does not touch the `scissor[4]` rect values. -/
def reset (r : WebGPURenderer) : WebGPURenderer :=
  { r with currentState :=
    { r.currentState with
        transform := idTransform
        fillColor := ⟨1, 1, 1, 1⟩
        strokeColor := ⟨0, 0, 0, 1⟩
        strokeWidth := 1
        hasScissor := false } }

/-- Method `translate`. -/
def translate (x y : ℚ) (r : WebGPURenderer) : WebGPURenderer :=
  { r with currentState :=
    { r.currentState with transform := translateT x y r.currentState.transform } }

/-- Method `rotate`; `cs`/`sn` are the source's `cosf(angle)`/`sinf(angle)`. -/
def rotate (cs sn : ℚ) (r : WebGPURenderer) : WebGPURenderer :=
  { r with currentState :=
    { r.currentState with transform := rotateT cs sn r.currentState.transform } }

/-- Method `scale`. -/
def scale (x y : ℚ) (r : WebGPURenderer) : WebGPURenderer :=
  { r with currentState :=
    { r.currentState with transform := scaleT x y r.currentState.transform } }

/-- Method `resetTransform`. -/
def resetTransform (r : WebGPURenderer) : WebGPURenderer :=
  { r with currentState := { r.currentState with transform := idTransform } }

/-- Method `scissor`: writes the scissor rect and sets the flag. -/
def scissor (x y w h : ℚ) (r : WebGPURenderer) : WebGPURenderer :=
  { r with currentState :=
    { r.currentState with
        scissorX := x
        scissorY := y
        scissorW := w
        scissorH := h
        hasScissor := true } }

/-- Method `resetScissor`: clears the flag only. -/
def resetScissor (r : WebGPURenderer) : WebGPURenderer :=
  { r with currentState := { r.currentState with hasScissor := false } }

/-- Method `fillColor`. -/
def fillColor (c : Color) (r : WebGPURenderer) : WebGPURenderer :=
  { r with currentState := { r.currentState with fillColor := c } }

/-- Method `strokeColor`. -/
def strokeColor (c : Color) (r : WebGPURenderer) : WebGPURenderer :=
  { r with currentState := { r.currentState with strokeColor := c } }

/-- Method `strokeWidth`. -/
def strokeWidth (w : ℚ) (r : WebGPURenderer) : WebGPURenderer :=
  { r with currentState := { r.currentState with strokeWidth := w } }

/-- Method `beginPath`: clears the recorded points and the start flag. -/
def beginPath (r : WebGPURenderer) : WebGPURenderer :=
  { r with pathPoints := [], pathHasStart := false }

/-- Method `moveTo`: transforms the point through the current matrix and
records it as both the path start and the current point. -/
def moveTo (x y : ℚ) (r : WebGPURenderer) : WebGPURenderer :=
  let tp := transformPoint r.currentState (x, y)
  { r with pathStart := tp, pathCur := tp, pathHasStart := true }

/-- Method `lineTo`: transforms the point; if a start point exists, appends the
segment (current point, new point); always updates the current point. -/
def lineTo (x y : ℚ) (r : WebGPURenderer) : WebGPURenderer :=
  let tp := transformPoint r.currentState (x, y)
  { r with
    pathPoints := r.pathPoints ++ (if r.pathHasStart then [r.pathCur, tp] else []),
    pathCur := tp }

/-- Method `closePath`: a `lineTo` back to the recorded start point (which is
already in device space and gets transformed again by `lineTo`, exactly as in
the source). -/
def closePath (r : WebGPURenderer) : WebGPURenderer :=
  if r.pathHasStart then lineTo r.pathStart.1 r.pathStart.2 r else r

/-- Segment-appending loop shared by the flattening code of `bezierTo` and
`arc`: starting at index `i`, runs `n` iterations; iteration `i` appends the
segment (current point, `f i`) and advances the current point to `f i`. -/
def pathLoopAppend (f : ℕ → ℚ × ℚ) : ℕ → ℕ → WebGPURenderer → WebGPURenderer
  | 0, _, r => r
  | n + 1, i, r =>
      pathLoopAppend f n (i + 1)
        { r with pathPoints := r.pathPoints ++ [r.pathCur, f i], pathCur := f i }

/-- Cubic Bernstein evaluation of `bezierTo`'s loop body at parameter `t`. -/
def bezPoint (p0 c1 c2 pe : ℚ × ℚ) (t : ℚ) : ℚ × ℚ :=
  let mt := 1 - t
  (mt ^ 3 * p0.1 + 3 * mt ^ 2 * t * c1.1 + 3 * mt * t ^ 2 * c2.1 + t ^ 3 * pe.1,
   mt ^ 3 * p0.2 + 3 * mt ^ 2 * t * c1.2 + 3 * mt * t ^ 2 * c2.2 + t ^ 3 * pe.2)

/-- Method `bezierTo`: transforms the control and end points, then flattens
into `segments = 20` line segments at `t = i/20`, `i = 1 … 20`. -/
def bezierTo (c1x c1y c2x c2y x y : ℚ) (r : WebGPURenderer) : WebGPURenderer :=
  let p0 := r.pathCur
  let c1 := transformPoint r.currentState (c1x, c1y)
  let c2 := transformPoint r.currentState (c2x, c2y)
  let pe := transformPoint r.currentState (x, y)
  pathLoopAppend (fun i => bezPoint p0 c1 c2 pe ((i : ℚ) / 20)) 20 1 r

/-- Method `quadTo`: control-point elevation to a cubic, then `bezierTo`.  The
source mixes the device-space current point `mPathX/mPathY` with the untouched
user-space arguments, exactly as transcribed here. -/
def quadTo (cx cy x y : ℚ) (r : WebGPURenderer) : WebGPURenderer :=
  let c1x := r.pathCur.1 + (2 / 3) * (cx - r.pathCur.1)
  let c1y := r.pathCur.2 + (2 / 3) * (cy - r.pathCur.2)
  let c2x := x + (2 / 3) * (cx - x)
  let c2y := y + (2 / 3) * (cy - y)
  bezierTo c1x c1y c2x c2y x y r

/-- Method `arc`: wraps the raw angle delta according to `dir`, computes the
segment count `max(3, (int)(|da| * r / kArcTessellationFactor))`, emits a
`moveTo` to the arc start when the path has no start point yet, then appends
one segment per sample at angles `a0 + dAngle * i`, `i = 1 … numSegments`. -/
def arc (cosQ sinQ : ℚ → ℚ) (cx cy rad a0 a1 : ℚ) (dir : ℤ) (r : WebGPURenderer) :
    WebGPURenderer :=
  let c := transformPoint r.currentState (cx, cy)
  let rawDa := a1 - a0
  let da := if dir = 1 then (if rawDa < 0 then rawDa + TWO_PI else rawDa)
            else (if rawDa > 0 then rawDa - TWO_PI else rawDa)
  let numSegments : ℕ := (max 3 (ctrunc (|da| * rad / kArcTessellationFactor))).toNat
  let dAngle := da / (numSegments : ℚ)
  let r := if r.pathHasStart then r
           else moveTo (c.1 + cosQ a0 * rad) (c.2 + sinQ a0 * rad) r
  pathLoopAppend
    (fun i => (c.1 + cosQ (a0 + dAngle * (i : ℚ)) * rad,
               c.2 + sinQ (a0 + dAngle * (i : ℚ)) * rad))
    numSegments 1 r

/-- Helper `pushVertex`: appends one vertex to the open batch. -/
def pushVertex (x y u v : ℚ) (c : Color) (r : WebGPURenderer) : WebGPURenderer :=
  { r with vertices := r.vertices ++ [⟨x, y, u, v, c⟩] }

/-- Helper `flushBatch` (nominal path, see file header): an empty batch is a
no-op; a non-empty batch is uploaded and drawn with exactly one draw call,
then cleared. -/
def flushBatch (r : WebGPURenderer) : WebGPURenderer :=
  if r.vertices.isEmpty then r
  else { r with vertices := [], submissions := r.submissions + 1 }

/-- Helper `setPipeline`: a no-op when the pipeline is unchanged; otherwise
flushes the open batch and adopts the new pipeline. -/
def setPipeline (p : Pipeline) (r : WebGPURenderer) : WebGPURenderer :=
  if r.currentPipeline = p then r
  else { flushBatch r with currentPipeline := p }

/-- Stroke epsilon: the source literal `0.0001f` of `if (len < 0.0001f)`. -/
def strokeEps : ℚ := 0.0001

/-- Stroke loop body for one consecutive point pair: skip the segment when
`len < 0.0001` (stated squared, since `len = sqrt(dx²+dy²) ≥ 0`); otherwise
both branches of the source's width test push the two untransformed segment
endpoints as line vertices (the computed normal `(-dy, dx)/len` is dead). -/
def strokeSegVerts (c : Color) (w : ℚ) (p q : ℚ × ℚ) : List Vertex2D :=
  let dx := q.1 - p.1
  let dy := q.2 - p.2
  if dx * dx + dy * dy < strokeEps * strokeEps then []
  else if w ≤ 1.5 then [⟨p.1, p.2, 0, 0, c⟩, ⟨q.1, q.2, 0, 0, c⟩]
  else [⟨p.1, p.2, 0, 0, c⟩, ⟨q.1, q.2, 0, 0, c⟩]

/-- Stroke loop over the flat point vector: iteration at index `i` reads the
consecutive point pair `(points[i], points[i+1])` and steps by one pair. -/
def strokeLoop (c : Color) (w : ℚ) : List (ℚ × ℚ) → List Vertex2D
  | p :: q :: rest => strokeSegVerts c w p q ++ strokeLoop c w (q :: rest)
  | _ => []

/-- Method `stroke`: switches to the stroke pipeline, then runs the segment
loop.  On an empty path the `size_t` loop bound `size() - 2` wraps around and
the first iteration reads out of range: the model records this in `ub`. -/
def stroke (r : WebGPURenderer) : WebGPURenderer :=
  let r := setPipeline pipeStroke r
  if r.pathPoints.isEmpty then { r with ub := true }
  else
    { r with vertices := r.vertices ++
        strokeLoop r.currentState.strokeColor r.currentState.strokeWidth r.pathPoints }

/-- Triangle-fan loop of `fill`: one triangle (centroid, points[i], points[i+1])
per consecutive point pair. -/
def fanLoop (c : Color) (ctr : ℚ × ℚ) : List (ℚ × ℚ) → List Vertex2D
  | p :: q :: rest =>
      ⟨ctr.1, ctr.2, 0, 0, c⟩ :: ⟨p.1, p.2, 0, 0, c⟩ :: ⟨q.1, q.2, 0, 0, c⟩ ::
        fanLoop c ctr (q :: rest)
  | _ => []

/-- Method `fill`: switches to the solid pipeline; returns early when the flat
vector holds fewer than 4 floats (fewer than 2 points); otherwise emits a
triangle fan from the centroid (mean of all recorded points). -/
def fill (r : WebGPURenderer) : WebGPURenderer :=
  let r := setPipeline pipeSolid r
  if r.pathPoints.length < 2 then r
  else
    let cx := (r.pathPoints.map Prod.fst).sum / (r.pathPoints.length : ℚ)
    let cy := (r.pathPoints.map Prod.snd).sum / (r.pathPoints.length : ℚ)
    { r with vertices := r.vertices ++
        fanLoop r.currentState.fillColor (cx, cy) r.pathPoints }

/-- Method `rect`: four axis-aligned sides via `moveTo`/`lineTo`/`closePath`. -/
def rect (x y w h : ℚ) (r : WebGPURenderer) : WebGPURenderer :=
  closePath (lineTo x (y + h) (lineTo (x + w) (y + h) (lineTo (x + w) y
    (moveTo x y (beginPath r)))))

/-- Method `roundedRect`: clamps the radius to `min(w, h) * 0.5`, then builds
the outline from `lineTo` and corner `arc` calls and closes the path. -/
def roundedRect (cosQ sinQ : ℚ → ℚ) (x y w h rad : ℚ) (r : WebGPURenderer) :
    WebGPURenderer :=
  let rr := min rad (min w h * 0.5)
  let r := beginPath r
  let r := moveTo (x + rr) y r
  let r := lineTo (x + w - rr) y r
  let r := arc cosQ sinQ (x + w - rr) (y + rr) rr (-HALF_PI) 0 0 r
  let r := lineTo (x + w) (y + h - rr) r
  let r := arc cosQ sinQ (x + w - rr) (y + h - rr) rr 0 HALF_PI 0 r
  let r := lineTo (x + rr) (y + h) r
  let r := arc cosQ sinQ (x + rr) (y + h - rr) rr HALF_PI PI 0 r
  let r := lineTo x (y + rr) r
  let r := arc cosQ sinQ (x + rr) (y + rr) rr PI (PI * 1.5) 0 r
  closePath r

/-- Method `circle`: a full `arc` plus `closePath`. -/
def circle (cosQ sinQ : ℚ → ℚ) (cx cy rad : ℚ) (r : WebGPURenderer) :
    WebGPURenderer :=
  closePath (arc cosQ sinQ cx cy rad 0 TWO_PI 0 (beginPath r))

/-- Method `line`: a one-segment path, stroked immediately. -/
def line (x1 y1 x2 y2 : ℚ) (r : WebGPURenderer) : WebGPURenderer :=
  stroke (lineTo x2 y2 (moveTo x1 y1 (beginPath r)))

/-- Helper `drawQuad`: adopts the given pipeline, transforms the four rectangle
corners, and pushes two triangles with per-corner UVs and the fill color. -/
def drawQuad (x y w h : ℚ) (p : Pipeline) (r : WebGPURenderer) : WebGPURenderer :=
  let r := setPipeline p r
  let q1 := transformPoint r.currentState (x, y)
  let q2 := transformPoint r.currentState (x + w, y)
  let q3 := transformPoint r.currentState (x + w, y + h)
  let q4 := transformPoint r.currentState (x, y + h)
  let c := r.currentState.fillColor
  { r with vertices := r.vertices ++
      [⟨q1.1, q1.2, 0, 0, c⟩, ⟨q2.1, q2.2, 1, 0, c⟩, ⟨q3.1, q3.2, 1, 1, c⟩,
       ⟨q1.1, q1.2, 0, 0, c⟩, ⟨q3.1, q3.2, 1, 1, c⟩, ⟨q4.1, q4.2, 0, 1, c⟩] }

/-- Sample position of the waveform/scope trace loops at index `i`:
`px = x + (i / (count-1)) * w`, `py = y + h*0.5 - data[i]*h*0.5`.  A null/short
data read is modelled by `getD` (the C++ requires `count ≤` data length). -/
def tracePoint (d : List ℚ) (count : ℤ) (x y w h : ℚ) (i : ℕ) : ℚ × ℚ :=
  (x + ((i : ℚ) / ((count : ℚ) - 1)) * w,
   y + h * 0.5 - d.getD i 0 * h * 0.5)

/-- Trace loop shared by `drawWaveform` and `drawScope`: `moveTo` on the first
sample, `lineTo` on the rest. -/
def traceLoop (d : List ℚ) (count : ℤ) (x y w h : ℚ) (r : WebGPURenderer) :
    WebGPURenderer :=
  (List.range count.toNat).foldl
    (fun r i =>
      let tp := tracePoint d count x y w h i
      if i = 0 then moveTo tp.1 tp.2 r else lineTo tp.1 tp.2 r) r

/-- Method `drawWaveform`: draws the dark background rectangle first, then
returns if the data pointer is null or the count non-positive; otherwise
builds the sample polyline and strokes it. -/
def drawWaveform (x y w h : ℚ) (data : Option (List ℚ)) (count : ℤ)
    (filled : Bool) (r : WebGPURenderer) : WebGPURenderer :=
  let r := fill (rect x y w h (fillColor ⟨0.1, 0.1, 0.1, 1⟩ r))
  if data.isNone ∨ count ≤ 0 then r
  else
    let d := data.getD []
    let r := fillColor r.currentState.strokeColor r
    let r := beginPath r
    let r := traceLoop d count x y w h r
    stroke r

/-- Method `drawSpectrum`: returns immediately on null data or non-positive
count; otherwise draws one bar quad and one peak quad per bin. -/
def drawSpectrum (x y w h : ℚ) (data : Option (List ℚ)) (count : ℤ)
    (r : WebGPURenderer) : WebGPURenderer :=
  if data.isNone ∨ count ≤ 0 then r
  else
    let d := data.getD []
    let barWidth := w / (count : ℚ)
    (List.range count.toNat).foldl
      (fun r i =>
        let barH := d.getD i 0 * h
        let barX := x + (i : ℚ) * barWidth
        let barY := y + h - barH
        let r := fillColor ⟨0, 1, 0, 1⟩ r
        let r := drawQuad barX barY (barWidth - 1) barH pipeSpectrumBar r
        drawQuad barX (barY - 2) (barWidth - 1) 2 pipeSpectrumPeak r) r

/-- Method `drawScope`: draws the grid quad first, then returns if the data
pointer is null or the count non-positive; otherwise builds the sample
polyline, sets the trace color and strokes it. -/
def drawScope (x y w h : ℚ) (data : Option (List ℚ)) (count : ℤ)
    (r : WebGPURenderer) : WebGPURenderer :=
  let r := fillColor ⟨0, 0.2, 0, 1⟩ r
  let r := drawQuad x y w h pipeScopeGrid r
  if data.isNone ∨ count ≤ 0 then r
  else
    let d := data.getD []
    let r := beginPath r
    let r := traceLoop d count x y w h r
    let r := strokeColor ⟨0.2, 1, 0.2, 1⟩ r
    stroke r

/-- Method `endFrame`: the mandatory final flush. -/
def endFrame (r : WebGPURenderer) : WebGPURenderer :=
  flushBatch r

/-- Method `beginFrame` (state part): clears the vertex batch, resets the draw
state, and rebinds the solid pipeline. -/
def beginFrame (r : WebGPURenderer) : WebGPURenderer :=
  { reset r with vertices := [], currentPipeline := pipeSolid }

end WebGPURenderer

/-- Renderer state at the start of a frame on a pristine renderer: empty batch,
empty stack, default draw state, solid pipeline bound. -/
def frameStart : WebGPURenderer :=
  ⟨[], [], ⟨idTransform, ⟨1, 1, 1, 1⟩, ⟨0, 0, 0, 1⟩, 1, 0, 0, 0, 0, false⟩,
   [], (0, 0), (0, 0), false, pipeSolid, 0, false⟩

/-- Observable session state of `WebGPUContext` during asynchronous
initialization: which handles were assigned, how many adapter/device requests
were issued (`wgpuInstanceRequestAdapter` / `wgpuAdapterRequestDevice`), and
the sequence of `mOnComplete` invocations with their success flag. -/
structure WebGPUContext where
  adapter : Bool
  device : Bool
  queue : Bool
  adapterRequests : ℕ
  deviceRequests : ℕ
  completions : List Bool
deriving Repr, DecidableEq

/-- Session state right after a successful `initializeAsync`: instance and
surface created, exactly one adapter request issued, no device request, no
completion callback fired yet. -/
def startedSession : WebGPUContext := ⟨false, false, false, 1, 0, []⟩

/-- Callback logic `handleAdapterRequest` (WebGPUContext.cpp lines 63-89):
on success stores the adapter and, when it is non-null, immediately issues the
device request; on failure fires the completion callback with `false` and
issues nothing. -/
def handleAdapterRequest (success adapterNonNull : Bool) (s : WebGPUContext) :
    WebGPUContext :=
  if success then
    let s := { s with adapter := adapterNonNull }
    if adapterNonNull then { s with deviceRequests := s.deviceRequests + 1 } else s
  else { s with completions := s.completions ++ [false] }

/-- Callback logic `handleDeviceRequest` (lines 48-61) together with
`assignDevice`/`onDeviceReady`: on success stores the device and finishes
initialization (completing with `false` if the device or its queue is null,
with `true` otherwise); on failure fires the completion callback with `false`
and issues no further request. -/
def handleDeviceRequest (success devNonNull queueOk : Bool) (s : WebGPUContext) :
    WebGPUContext :=
  if success then
    let s := { s with device := devNonNull }
    if devNonNull then
      let s := { s with queue := queueOk }
      if queueOk then { s with completions := s.completions ++ [true] }
      else { s with completions := s.completions ++ [false] }
    else { s with completions := s.completions ++ [false] }
  else { s with completions := s.completions ++ [false] }

/-- Deep-embedded drawing vocabulary of the Immediate Canvas: one constructor
per public renderer call modelled above.  Used to quantify over "the same
draw-call sequence" in the state-stack and scissor noninterference claims. -/
inductive Cmd where
  | save
  | restore
  | reset
  | translate (x y : ℚ)
  | rotate (a : ℚ)
  | scale (x y : ℚ)
  | resetTransform
  | scissor (x y w h : ℚ)
  | resetScissor
  | fillColor (c : Color)
  | strokeColor (c : Color)
  | strokeWidth (w : ℚ)
  | beginPath
  | moveTo (x y : ℚ)
  | lineTo (x y : ℚ)
  | closePath
  | bezierTo (c1x c1y c2x c2y x y : ℚ)
  | quadTo (cx cy x y : ℚ)
  | arc (cx cy rad a0 a1 : ℚ) (dir : ℤ)
  | fill
  | stroke
  | rect (x y w h : ℚ)
  | roundedRect (x y w h rad : ℚ)
  | circle (cx cy rad : ℚ)
  | line (x1 y1 x2 y2 : ℚ)
  | drawQuad (x y w h : ℚ) (p : Pipeline)
  | drawWaveform (x y w h : ℚ) (data : Option (List ℚ)) (count : ℤ) (filled : Bool)
  | drawSpectrum (x y w h : ℚ) (data : Option (List ℚ)) (count : ℤ)
  | drawScope (x y w h : ℚ) (data : Option (List ℚ)) (count : ℤ)
  | setPipeline (p : Pipeline)
  | endFrame
deriving Repr

/-- Interpreter for one drawing call; `cosQ`/`sinQ` interpret `cosf`/`sinf`. -/
def exec (cosQ sinQ : ℚ → ℚ) : Cmd → WebGPURenderer → WebGPURenderer
  | .save, r => r.save
  | .restore, r => r.restore
  | .reset, r => r.reset
  | .translate x y, r => r.translate x y
  | .rotate a, r => r.rotate (cosQ a) (sinQ a)
  | .scale x y, r => r.scale x y
  | .resetTransform, r => r.resetTransform
  | .scissor x y w h, r => r.scissor x y w h
  | .resetScissor, r => r.resetScissor
  | .fillColor c, r => r.fillColor c
  | .strokeColor c, r => r.strokeColor c
  | .strokeWidth w, r => r.strokeWidth w
  | .beginPath, r => r.beginPath
  | .moveTo x y, r => r.moveTo x y
  | .lineTo x y, r => r.lineTo x y
  | .closePath, r => r.closePath
  | .bezierTo c1x c1y c2x c2y x y, r => r.bezierTo c1x c1y c2x c2y x y
  | .quadTo cx cy x y, r => r.quadTo cx cy x y
  | .arc cx cy rad a0 a1 dir, r => r.arc cosQ sinQ cx cy rad a0 a1 dir
  | .fill, r => r.fill
  | .stroke, r => r.stroke
  | .rect x y w h, r => r.rect x y w h
  | .roundedRect x y w h rad, r => r.roundedRect cosQ sinQ x y w h rad
  | .circle cx cy rad, r => r.circle cosQ sinQ cx cy rad
  | .line x1 y1 x2 y2, r => r.line x1 y1 x2 y2
  | .drawQuad x y w h p, r => r.drawQuad x y w h p
  | .drawWaveform x y w h data count filled, r => r.drawWaveform x y w h data count filled
  | .drawSpectrum x y w h data count, r => r.drawSpectrum x y w h data count
  | .drawScope x y w h data count, r => r.drawScope x y w h data count
  | .setPipeline p, r => r.setPipeline p
  | .endFrame, r => r.endFrame

/-- Interpreter for a sequence of drawing calls, in call order. -/
def execList (cosQ sinQ : ℚ → ℚ) (cs : List Cmd) (r : WebGPURenderer) :
    WebGPURenderer :=
  cs.foldl (fun r c => exec cosQ sinQ c r) r

/-- Draw-state mutators: the calls that only modify the current draw state
(transform, colors, stroke width, scissor) and touch nothing else. -/
def Cmd.IsStateMut : Cmd → Prop
  | .reset => True
  | .translate _ _ => True
  | .rotate _ => True
  | .scale _ _ => True
  | .resetTransform => True
  | .scissor _ _ _ _ => True
  | .resetScissor => True
  | .fillColor _ => True
  | .strokeColor _ => True
  | .strokeWidth _ => True
  | _ => False

/-- Scissor equivalence of renderer states: equal in every observable the
drawing and flushing code can read; the scissor rect and flag of the current
draw state and of every saved stack entry are unconstrained. -/
def rEquiv (r1 r2 : WebGPURenderer) : Prop :=
  r1.vertices = r2.vertices ∧
  r1.stateStack.map DrawState.core = r2.stateStack.map DrawState.core ∧
  r1.currentState.core = r2.currentState.core ∧
  r1.pathPoints = r2.pathPoints ∧
  r1.pathStart = r2.pathStart ∧
  r1.pathCur = r2.pathCur ∧
  r1.pathHasStart = r2.pathHasStart ∧
  r1.currentPipeline = r2.currentPipeline ∧
  r1.submissions = r2.submissions ∧
  r1.ub = r2.ub

/-- Flat list of segment-endpoint pairs of a polyline through the given
points: for points `p₀ p₁ … pₙ` the list `p₀ p₁ p₁ p₂ … pₙ₋₁ pₙ`, i.e. the
exact append pattern of the renderer's flattening loops. -/
def polylineSegs : List (ℚ × ℚ) → List (ℚ × ℚ)
  | p :: q :: rest => p :: q :: polylineSegs (q :: rest)
  | _ => []

/-- Angle delta wrap rule of `WebGPURenderer::arc`: direction `1` adds `2π`
when the raw delta is negative; any other direction subtracts `2π` when the
raw delta is positive. -/
def arcDelta (dir : ℤ) (rawDa : ℚ) : ℚ :=
  if dir = 1 then (if rawDa < 0 then rawDa + TWO_PI else rawDa)
  else (if rawDa > 0 then rawDa - TWO_PI else rawDa)

/-- Segment count of `WebGPURenderer::arc` for wrapped delta `da` and radius
`rad`: `max(3, (int)(|da| * rad / kArcTessellationFactor))`. -/
def arcSegCount (da rad : ℚ) : ℕ :=
  (max 3 (ctrunc (|da| * rad / kArcTessellationFactor))).toNat

/-- One draw call of the batching discipline: adopt a pipeline, then push this
call's vertices into the open batch. -/
def drawCall (p : Pipeline) (vs : List Vertex2D) (r : WebGPURenderer) :
    WebGPURenderer :=
  vs.foldl (fun r v => r.pushVertex v.x v.y v.u v.v v.color) (r.setPipeline p)

/-- Run of a whole in-frame sequence of draw calls. -/
def runDraws (calls : List (Pipeline × List Vertex2D)) (r : WebGPURenderer) :
    WebGPURenderer :=
  calls.foldl (fun r c => drawCall c.1 c.2 r) r

/-- Number of pipeline changes along a pipeline sequence, starting from the
currently bound pipeline `q`. -/
def pipeChanges : Pipeline → List Pipeline → ℕ
  | _, [] => 0
  | q, p :: ps => (if p = q then 0 else 1) + pipeChanges p ps

/-- Number of maximal runs of equal adjacent pipelines in a sequence (for
`A,A,A,B,B,A` this is `3`): the pipeline-transition count of the claim, with
the final forced flush counted for the last run. -/
def pipeRuns : List Pipeline → ℕ
  | [] => 0
  | p :: ps => 1 + pipeChanges p ps

/-- Demonstration state: the fresh frame holding a one-segment recorded path
`(0,0) → (10,0)` with stroke width 3 (a thick stroke). -/
def strokeDemo : WebGPURenderer :=
  { frameStart with
      pathPoints := [(0, 0), (10, 0)]
      currentState := { frameStart.currentState with strokeWidth := 3 } }

/-- Demonstration state: the fresh frame with a scissor rect set. -/
def scissorDemo : WebGPURenderer :=
  { frameStart with
      currentState :=
        { frameStart.currentState with
            scissorX := 5
            scissorY := 6
            scissorW := 7
            scissorH := 8
            hasScissor := true } }

/-- Projection form of `DrawState.core`, for rewriting. -/
theorem core_def (s : DrawState) :
    s.core = ⟨s.transform, s.fillColor, s.strokeColor, s.strokeWidth⟩ := rfl

/-- C1 counterexample: with the current transform `scale(2,2)`, appending the
point `(0,0)` after `translate(1,0)` yields device point `(1,0)`, while the
claimed right-composition `T ∘ Translate(1,0)` yields `T((0,0)+(1,0)) = (2,0)`;
so `translate` does not compose onto the existing matrix. -/
theorem C1_counterexample :
    ¬ (applyT (translateT 1 0 (scaleT 2 2 idTransform)) (0, 0) =
       applyT (scaleT 2 2 idTransform) ((0 : ℚ) + 1, (0 : ℚ) + 0)) := by
  norm_num [applyT, translateT, scaleT, idTransform]

/-- C1 (amended): `rotate` and `scale` compose onto the existing current
transform (for every starting matrix and subsequently appended point, the
device point equals the old matrix applied to the corresponding elementary
rotation/scaling of the point), but `translate(x,y)` instead adds `(x,y)` to
the device-space result (a left-composed device-space translation), which
coincides with right-composition only when the linear part of the current
matrix is the identity. -/
theorem C1_transform_composition :
    (∀ (m : Transform2D) (cs sn : ℚ) (p : ℚ × ℚ),
       applyT (rotateT cs sn m) p
         = applyT m (cs * p.1 + sn * p.2, cs * p.2 - sn * p.1)) ∧
    (∀ (m : Transform2D) (sx sy : ℚ) (p : ℚ × ℚ),
       applyT (scaleT sx sy m) p = applyT m (sx * p.1, sy * p.2)) ∧
    (∀ (m : Transform2D) (x y : ℚ) (p : ℚ × ℚ),
       applyT (translateT x y m) p
         = ((applyT m p).1 + x, (applyT m p).2 + y)) := by
  refine ⟨?_, ?_, ?_⟩ <;> intro m a b p <;>
    simp only [applyT, rotateT, scaleT, translateT, Prod.mk.injEq] <;>
    constructor <;> ring

/-- C4: in the device-session callback logic, an adapter-request failure moves
the attempt to its terminal failure (exactly one completion callback with
`false`) without ever issuing a device request; an adapter success chains into
exactly one device request, and a subsequent device-request failure completes
with `false` without re-attempting the adapter request (the adapter-request
count stays 1) and without retrying the device request (the device-request
count stays 1). -/
theorem C4_session_failure_paths :
    (∀ a : Bool,
       (handleAdapterRequest false a startedSession).deviceRequests = 0 ∧
       (handleAdapterRequest false a startedSession).completions = [false]) ∧
    ((handleAdapterRequest true true startedSession).deviceRequests = 1 ∧
     (handleAdapterRequest true true startedSession).completions = []) ∧
    (∀ d q : Bool,
       (handleDeviceRequest false d q
          (handleAdapterRequest true true startedSession)).adapterRequests = 1 ∧
       (handleDeviceRequest false d q
          (handleAdapterRequest true true startedSession)).deviceRequests = 1 ∧
       (handleDeviceRequest false d q
          (handleAdapterRequest true true startedSession)).completions = [false]) := by
  refine ⟨fun a => ?_, ⟨?_, ?_⟩, fun d q => ?_⟩ <;>
    simp [handleAdapterRequest, handleDeviceRequest, startedSession]

/-- C3 (code bug): `fill()` on a path with 0 or 1 points leaves the vertex
batch untouched as claimed, but `stroke()` on such a path performs an
out-of-range read of the segment list: its `size_t` loop bound
`mPathPoints.size() - 2` wraps around for the empty vector, so the loop body
runs and reads `mPathPoints[0..3]` past the end (recorded by the `ub` flag). -/
theorem C3_stroke_empty_path_oob :
    ((WebGPURenderer.beginPath frameStart).stroke).ub = true ∧
    ((WebGPURenderer.moveTo 3 4 (WebGPURenderer.beginPath frameStart)).stroke).ub = true ∧
    frameStart.ub = false ∧
    ((WebGPURenderer.beginPath frameStart).fill).vertices = [] ∧
    ((WebGPURenderer.moveTo 3 4 (WebGPURenderer.beginPath frameStart)).fill).vertices = [] ∧
    ((WebGPURenderer.beginPath frameStart).fill).ub = false ∧
    ((WebGPURenderer.beginPath frameStart).stroke).vertices = [] ∧
    ((WebGPURenderer.beginPath frameStart).fill).submissions = 0 := by
  refine ⟨?_, ?_, rfl, ?_, ?_, ?_, ?_, ?_⟩ <;>
    simp [WebGPURenderer.stroke, WebGPURenderer.fill, WebGPURenderer.beginPath,
      WebGPURenderer.moveTo, WebGPURenderer.setPipeline, WebGPURenderer.flushBatch,
      frameStart, pipeStroke, pipeSolid]

/-- Unfolding lemma: running a command sequence step by step. -/
theorem execList_cons (cosQ sinQ : ℚ → ℚ) (c : Cmd) (cs : List Cmd)
    (r : WebGPURenderer) :
    execList cosQ sinQ (c :: cs) r = execList cosQ sinQ cs (exec cosQ sinQ c r) := rfl

/-- Unfolding lemma: the empty command sequence. -/
theorem execList_nil (cosQ sinQ : ℚ → ℚ) (r : WebGPURenderer) :
    execList cosQ sinQ [] r = r := rfl

/-- Iterated `save` pushes that many copies of the current draw state. -/
theorem save_iterate (n : ℕ) (r : WebGPURenderer) :
    WebGPURenderer.save^[n] r
      = { r with stateStack := List.replicate n r.currentState ++ r.stateStack } := by
  induction n with
  | zero => simp
  | succ n ih =>
      rw [Function.iterate_succ_apply', ih]
      simp [WebGPURenderer.save, List.replicate_succ]

/-- Iterated `restore` pops a block of identical saved copies wholesale. -/
theorem restore_iterate (n : ℕ) (s : DrawState) (old : List DrawState) :
    ∀ r : WebGPURenderer, r.stateStack = List.replicate (n + 1) s ++ old →
      WebGPURenderer.restore^[n + 1] r
        = { r with currentState := s, stateStack := old } := by
  induction n with
  | zero =>
      intro r h
      simp only [List.replicate_succ, List.replicate_zero, List.nil_append,
        List.cons_append] at h
      simp [Function.iterate_one, WebGPURenderer.restore, h]
  | succ n ih =>
      intro r h
      rw [Function.iterate_succ_apply]
      have h1 : WebGPURenderer.restore r
          = { r with currentState := s,
                     stateStack := List.replicate (n + 1) s ++ old } := by
        simp only [List.replicate_succ, List.cons_append] at h
        simp [WebGPURenderer.restore, h, List.replicate_succ]
      rw [h1, ih _ (by simp [List.replicate_succ])]

/-- Draw-state mutators touch neither the state stack nor any other renderer
field outside the current draw state. -/
theorem execList_statemut_stack (cosQ sinQ : ℚ → ℚ) :
    ∀ (cs : List Cmd), (∀ c ∈ cs, c.IsStateMut) →
    ∀ r : WebGPURenderer, (execList cosQ sinQ cs r).stateStack = r.stateStack := by
  intro cs
  induction cs with
  | nil => intro _ r; rfl
  | cons c rest ih =>
      intro hm r
      have hc : c.IsStateMut := hm c (by simp)
      rw [execList_cons, ih (fun c' h' => hm c' (by simp [h']))]
      cases c <;>
        first
          | exact (hc : False).elim
          | simp [exec, WebGPURenderer.reset, WebGPURenderer.translate,
              WebGPURenderer.rotate, WebGPURenderer.scale,
              WebGPURenderer.resetTransform, WebGPURenderer.scissor,
              WebGPURenderer.resetScissor, WebGPURenderer.fillColor,
              WebGPURenderer.strokeColor, WebGPURenderer.strokeWidth]

/-- C5: for every draw sequence of n+1 `save()` calls, then arbitrary
draw-state mutations, then n+1 `restore()` calls, the draw state and the state
stack afterwards equal those before the first `save()`; and `restore()` on an
empty stack is a no-op. -/
theorem C5_save_restore_roundtrip :
    (∀ (cosQ sinQ : ℚ → ℚ) (n : ℕ) (ms : List Cmd),
       (∀ m ∈ ms, m.IsStateMut) → ∀ r : WebGPURenderer,
       (WebGPURenderer.restore^[n + 1]
          (execList cosQ sinQ ms (WebGPURenderer.save^[n + 1] r))).currentState
         = r.currentState ∧
       (WebGPURenderer.restore^[n + 1]
          (execList cosQ sinQ ms (WebGPURenderer.save^[n + 1] r))).stateStack
         = r.stateStack) ∧
    (∀ r : WebGPURenderer, r.stateStack = [] → r.restore = r) := by
  constructor
  · intro cosQ sinQ n ms hms r
    have hstack : (execList cosQ sinQ ms (WebGPURenderer.save^[n + 1] r)).stateStack
        = List.replicate (n + 1) r.currentState ++ r.stateStack := by
      rw [execList_statemut_stack cosQ sinQ ms hms, save_iterate]
    rw [restore_iterate n r.currentState r.stateStack _ hstack]
    exact ⟨rfl, rfl⟩
  · intro r h
    simp [WebGPURenderer.restore, h]

/-- C5 witness: one save, a translate, one restore, on the fresh frame state;
and a restore on the fresh (empty-stack) state is a no-op. -/
theorem C5_witness :
    (∀ m ∈ [Cmd.translate 1 2], m.IsStateMut) ∧
    frameStart.stateStack = [] ∧
    (WebGPURenderer.restore^[0 + 1]
       (execList id id [Cmd.translate 1 2]
          (WebGPURenderer.save^[0 + 1] frameStart))).currentState
      = frameStart.currentState ∧
    (WebGPURenderer.restore^[0 + 1]
       (execList id id [Cmd.translate 1 2]
          (WebGPURenderer.save^[0 + 1] frameStart))).stateStack
      = frameStart.stateStack ∧
    frameStart.restore = frameStart :=
  ⟨by intro m hm; simp only [List.mem_singleton] at hm; subst hm; trivial,
   rfl,
   (C5_save_restore_roundtrip.1 id id 0 [Cmd.translate 1 2]
      (by intro m hm; simp only [List.mem_singleton] at hm; subst hm; trivial)
      frameStart).1,
   (C5_save_restore_roundtrip.1 id id 0 [Cmd.translate 1 2]
      (by intro m hm; simp only [List.mem_singleton] at hm; subst hm; trivial)
      frameStart).2,
   C5_save_restore_roundtrip.2 frameStart rfl⟩

/-- Flush of a non-empty batch: one draw submission, batch cleared. -/
theorem flushBatch_ne (r : WebGPURenderer) (h : r.vertices ≠ []) :
    r.flushBatch = { r with vertices := [], submissions := r.submissions + 1 } := by
  simp [WebGPURenderer.flushBatch, h]

/-- Flush of an empty batch: a no-op. -/
theorem flushBatch_empty (r : WebGPURenderer) (h : r.vertices = []) :
    r.flushBatch = r := by
  simp [WebGPURenderer.flushBatch, h]

/-- Rebinding the already-bound pipeline is a no-op. -/
theorem setPipeline_self (r : WebGPURenderer) :
    r.setPipeline r.currentPipeline = r := by
  simp [WebGPURenderer.setPipeline]

/-- Pushing a list of vertices appends them to the open batch. -/
theorem pushList_eq (vs : List Vertex2D) :
    ∀ r : WebGPURenderer,
      vs.foldl (fun r v => r.pushVertex v.x v.y v.u v.v v.color) r
        = { r with vertices := r.vertices ++ vs } := by
  induction vs with
  | nil => intro r; simp
  | cons v rest ih =>
      intro r
      rw [List.foldl_cons, ih]
      simp [WebGPURenderer.pushVertex]

/-- Draw-call shape: adopt the pipeline, then append this call's vertices. -/
theorem drawCall_eq (p : Pipeline) (vs : List Vertex2D) (r : WebGPURenderer) :
    drawCall p vs r
      = { r.setPipeline p with vertices := (r.setPipeline p).vertices ++ vs } := by
  rw [drawCall, pushList_eq]

/-- Submission count of a draw sequence started on a non-empty open batch:
one flush per pipeline change plus the final forced flush. -/
theorem runDraws_endFrame_ne :
    ∀ (calls : List (Pipeline × List Vertex2D)) (r : WebGPURenderer),
      (∀ c ∈ calls, c.2 ≠ []) → r.vertices ≠ [] →
      ((runDraws calls r).endFrame).submissions
        = r.submissions + 1 + pipeChanges r.currentPipeline (calls.map Prod.fst) := by
  intro calls
  induction calls with
  | nil =>
      intro r _ hv
      rw [runDraws, List.foldl_nil, WebGPURenderer.endFrame, flushBatch_ne r hv]
      rfl
  | cons c rest ih =>
      intro r hne hv
      have hrest : ∀ c' ∈ rest, c'.2 ≠ [] := fun c' h' => hne c' (by simp [h'])
      have hstep : runDraws (c :: rest) r = runDraws rest (drawCall c.1 c.2 r) := rfl
      rw [hstep]
      by_cases hp : r.currentPipeline = c.1
      · have hset : r.setPipeline c.1 = r := by rw [← hp, setPipeline_self]
        rw [drawCall_eq, hset,
          ih { r with vertices := r.vertices ++ c.2 } hrest (by simp [hv])]
        simp [pipeChanges, hp]
      · have hp' : ¬(c.1 = r.currentPipeline) := fun he => hp he.symm
        have hset : r.setPipeline c.1
            = { r with vertices := [], submissions := r.submissions + 1,
                       currentPipeline := c.1 } := by
          rw [WebGPURenderer.setPipeline, if_neg hp, flushBatch_ne r hv]
        rw [drawCall_eq, hset,
          ih _ hrest (by simpa using hne c (by simp))]
        simp [pipeChanges, hp']
        omega

/-- C2: for every in-frame draw sequence in which each call contributes at
least one vertex, starting from the fresh (empty) batch, the number of GPU
draw submissions — counting the final forced flush of `endFrame` — equals the
number of maximal same-pipeline runs of the sequence (one flush per pipeline
transition plus the final one); and `setPipeline` with the already-bound
pipeline is a no-op. -/
theorem C2_pipeline_flush_count :
    (∀ r : WebGPURenderer, r.setPipeline r.currentPipeline = r) ∧
    (∀ (calls : List (Pipeline × List Vertex2D)) (r : WebGPURenderer),
       (∀ c ∈ calls, c.2 ≠ []) → r.vertices = [] →
       ((runDraws calls r).endFrame).submissions
         = r.submissions + pipeRuns (calls.map Prod.fst)) := by
  refine ⟨setPipeline_self, ?_⟩
  intro calls r hne hv
  cases calls with
  | nil =>
      rw [runDraws, List.foldl_nil, WebGPURenderer.endFrame, flushBatch_empty r hv]
      rfl
  | cons c rest =>
      have hrest : ∀ c' ∈ rest, c'.2 ≠ [] := fun c' h' => hne c' (by simp [h'])
      have hstep : runDraws (c :: rest) r = runDraws rest (drawCall c.1 c.2 r) := rfl
      rw [hstep]
      by_cases hp : r.currentPipeline = c.1
      · have hset : r.setPipeline c.1 = r := by rw [← hp, setPipeline_self]
        rw [drawCall_eq, hset,
          runDraws_endFrame_ne rest { r with vertices := r.vertices ++ c.2 } hrest
            (by simpa [hv] using hne c (by simp))]
        simp [pipeRuns, pipeChanges, hp, hv]
        omega
      · have hp' : ¬(c.1 = r.currentPipeline) := fun he => hp he.symm
        have hset : r.setPipeline c.1
            = { r with currentPipeline := c.1 } := by
          rw [WebGPURenderer.setPipeline, if_neg hp, flushBatch_empty r hv]
        rw [drawCall_eq, hset,
          runDraws_endFrame_ne rest _ hrest (by simpa [hv] using hne c (by simp))]
        simp [pipeRuns, pipeChanges, hp', hv]
        omega

/-- C2 witness: drawing with pipelines `A,A,A,B,B,A` (A = solid, B = stroke),
one vertex per call, from the fresh frame yields exactly 3 submissions. -/
theorem C2_witness :
    (∀ c ∈ [((0 : Pipeline), [(⟨0, 0, 0, 0, ⟨1, 1, 1, 1⟩⟩ : Vertex2D)]),
            (0, [⟨0, 0, 0, 0, ⟨1, 1, 1, 1⟩⟩]), (0, [⟨0, 0, 0, 0, ⟨1, 1, 1, 1⟩⟩]),
            (1, [⟨0, 0, 0, 0, ⟨1, 1, 1, 1⟩⟩]), (1, [⟨0, 0, 0, 0, ⟨1, 1, 1, 1⟩⟩]),
            (0, [⟨0, 0, 0, 0, ⟨1, 1, 1, 1⟩⟩])], c.2 ≠ []) ∧
    frameStart.vertices = [] ∧
    ((runDraws [((0 : Pipeline), [(⟨0, 0, 0, 0, ⟨1, 1, 1, 1⟩⟩ : Vertex2D)]),
            (0, [⟨0, 0, 0, 0, ⟨1, 1, 1, 1⟩⟩]), (0, [⟨0, 0, 0, 0, ⟨1, 1, 1, 1⟩⟩]),
            (1, [⟨0, 0, 0, 0, ⟨1, 1, 1, 1⟩⟩]), (1, [⟨0, 0, 0, 0, ⟨1, 1, 1, 1⟩⟩]),
            (0, [⟨0, 0, 0, 0, ⟨1, 1, 1, 1⟩⟩])] frameStart).endFrame).submissions
      = frameStart.submissions +
        pipeRuns (([((0 : Pipeline), [(⟨0, 0, 0, 0, ⟨1, 1, 1, 1⟩⟩ : Vertex2D)]),
            (0, [⟨0, 0, 0, 0, ⟨1, 1, 1, 1⟩⟩]), (0, [⟨0, 0, 0, 0, ⟨1, 1, 1, 1⟩⟩]),
            (1, [⟨0, 0, 0, 0, ⟨1, 1, 1, 1⟩⟩]), (1, [⟨0, 0, 0, 0, ⟨1, 1, 1, 1⟩⟩]),
            (0, [⟨0, 0, 0, 0, ⟨1, 1, 1, 1⟩⟩])]).map Prod.fst) ∧
    frameStart.submissions +
        pipeRuns (([((0 : Pipeline), [(⟨0, 0, 0, 0, ⟨1, 1, 1, 1⟩⟩ : Vertex2D)]),
            (0, [⟨0, 0, 0, 0, ⟨1, 1, 1, 1⟩⟩]), (0, [⟨0, 0, 0, 0, ⟨1, 1, 1, 1⟩⟩]),
            (1, [⟨0, 0, 0, 0, ⟨1, 1, 1, 1⟩⟩]), (1, [⟨0, 0, 0, 0, ⟨1, 1, 1, 1⟩⟩]),
            (0, [⟨0, 0, 0, 0, ⟨1, 1, 1, 1⟩⟩])]).map Prod.fst) = 3 :=
  ⟨by simp, rfl,
   C2_pipeline_flush_count.2 _ frameStart (by simp) rfl,
   by norm_num [pipeRuns, pipeChanges, frameStart]⟩

/-- Stroke loop characterization: the loop walks the consecutive point pairs
of the flat vector, i.e. `zip points points.tail`. -/
theorem strokeLoop_zip (c : Color) (w : ℚ) :
    ∀ pts : List (ℚ × ℚ),
      WebGPURenderer.strokeLoop c w pts
        = (pts.zip pts.tail).flatMap
            (fun pq => WebGPURenderer.strokeSegVerts c w pq.1 pq.2) := by
  intro pts
  induction pts with
  | nil => rfl
  | cons p rest ih =>
      cases rest with
      | nil => rfl
      | cons q rest2 => simp [WebGPURenderer.strokeLoop, ih]

/-- Fields of the renderer untouched by `setPipeline`. -/
theorem setPipeline_fields (p : Pipeline) (r : WebGPURenderer) :
    (r.setPipeline p).pathPoints = r.pathPoints ∧
    (r.setPipeline p).currentState = r.currentState ∧
    (r.setPipeline p).ub = r.ub := by
  unfold WebGPURenderer.setPipeline WebGPURenderer.flushBatch
  split_ifs <;> simp

/-- C6 counterexample: stroking the one-segment path `(0,0) → (10,0)` with
stroke width 3 (thick) emits exactly the two original endpoints as one line
primitive — not the 4-corner quad offset by `±normal·strokeWidth/2` that the
claim describes for thick strokes. -/
theorem C6_counterexample :
    (strokeDemo.stroke).vertices
      = [⟨0, 0, 0, 0, ⟨0, 0, 0, 1⟩⟩, ⟨10, 0, 0, 0, ⟨0, 0, 0, 1⟩⟩] ∧
    ¬((strokeDemo.stroke).vertices.length = 4) := by
  constructor <;>
    norm_num [WebGPURenderer.stroke, WebGPURenderer.setPipeline,
      WebGPURenderer.flushBatch, WebGPURenderer.strokeLoop,
      WebGPURenderer.strokeSegVerts, WebGPURenderer.strokeEps, strokeDemo, frameStart,
      pipeStroke, pipeSolid]

/-- C6 (amended): for every non-empty recorded path, `stroke` performs no
out-of-range access, and for each consecutive point pair it either skips the
segment (when the squared length is below `0.0001²`) or emits a single GPU
line primitive consisting of the two unmodified endpoints in the stroke color
— independent of `strokeWidth`; no perpendicular quad is emitted (the computed
normal is dead code). -/
theorem C6_stroke_line_segments :
    ∀ r : WebGPURenderer, r.pathPoints ≠ [] →
      (r.stroke).ub = r.ub ∧
      (r.stroke).vertices
        = (r.setPipeline pipeStroke).vertices ++
          (r.pathPoints.zip r.pathPoints.tail).flatMap (fun pq =>
            if (pq.2.1 - pq.1.1) * (pq.2.1 - pq.1.1) +
               (pq.2.2 - pq.1.2) * (pq.2.2 - pq.1.2) < WebGPURenderer.strokeEps * WebGPURenderer.strokeEps
            then []
            else [⟨pq.1.1, pq.1.2, 0, 0, r.currentState.strokeColor⟩,
                  ⟨pq.2.1, pq.2.2, 0, 0, r.currentState.strokeColor⟩]) := by
  intro r h
  obtain ⟨hpp, hcs, hub⟩ := setPipeline_fields pipeStroke r
  simp only [WebGPURenderer.stroke, hpp, hcs, hub]
  rw [strokeLoop_zip]
  simp [h, WebGPURenderer.strokeSegVerts, ite_self, hub, hcs, hpp]

/-- C6 witness: the amended statement instantiated on the thick one-segment
demonstration path. -/
theorem C6_witness :
    strokeDemo.pathPoints ≠ [] ∧
    ((strokeDemo.stroke).ub = strokeDemo.ub ∧
     (strokeDemo.stroke).vertices
       = (strokeDemo.setPipeline pipeStroke).vertices ++
         (strokeDemo.pathPoints.zip strokeDemo.pathPoints.tail).flatMap (fun pq =>
           if (pq.2.1 - pq.1.1) * (pq.2.1 - pq.1.1) +
              (pq.2.2 - pq.1.2) * (pq.2.2 - pq.1.2) < WebGPURenderer.strokeEps * WebGPURenderer.strokeEps
           then []
           else [⟨pq.1.1, pq.1.2, 0, 0, strokeDemo.currentState.strokeColor⟩,
                 ⟨pq.2.1, pq.2.2, 0, 0, strokeDemo.currentState.strokeColor⟩])) :=
  ⟨by simp [strokeDemo], C6_stroke_line_segments strokeDemo (by simp [strokeDemo])⟩

/-- Length of a flattened polyline: one segment (two entries) per step. -/
theorem polylineSegs_length (p : ℚ × ℚ) (ps : List (ℚ × ℚ)) :
    (polylineSegs (p :: ps)).length = 2 * ps.length := by
  induction ps generalizing p with
  | nil => rfl
  | cons q rest ih => simp [polylineSegs, ih]; omega

/-- Fields of the renderer untouched by the segment-appending loop. -/
theorem pathLoopAppend_fields (f : ℕ → ℚ × ℚ) :
    ∀ (n i : ℕ) (r : WebGPURenderer),
      (WebGPURenderer.pathLoopAppend f n i r).vertices = r.vertices ∧
      (WebGPURenderer.pathLoopAppend f n i r).stateStack = r.stateStack ∧
      (WebGPURenderer.pathLoopAppend f n i r).currentState = r.currentState ∧
      (WebGPURenderer.pathLoopAppend f n i r).pathStart = r.pathStart ∧
      (WebGPURenderer.pathLoopAppend f n i r).pathHasStart = r.pathHasStart ∧
      (WebGPURenderer.pathLoopAppend f n i r).currentPipeline = r.currentPipeline ∧
      (WebGPURenderer.pathLoopAppend f n i r).submissions = r.submissions ∧
      (WebGPURenderer.pathLoopAppend f n i r).ub = r.ub := by
  intro n
  induction n with
  | zero => intro i r; exact ⟨rfl, rfl, rfl, rfl, rfl, rfl, rfl, rfl⟩
  | succ n ih =>
      intro i r
      simp only [WebGPURenderer.pathLoopAppend]
      exact ih (i + 1) _

/-- Points appended by the segment loop: the polyline from the current point
through the sample points `f i, f (i+1), …, f (i+n-1)`. -/
theorem pathLoopAppend_points (f : ℕ → ℚ × ℚ) :
    ∀ (n i : ℕ) (r : WebGPURenderer),
      (WebGPURenderer.pathLoopAppend f n i r).pathPoints
        = r.pathPoints ++
          polylineSegs (r.pathCur :: (List.range n).map (fun k => f (i + k))) := by
  intro n
  induction n with
  | zero => intro i r; simp [WebGPURenderer.pathLoopAppend, polylineSegs]
  | succ n ih =>
      intro i r
      simp only [WebGPURenderer.pathLoopAppend]
      rw [ih (i + 1)]
      have hidx : ∀ k : ℕ, i + 1 + k = i + (k + 1) := fun k => by omega
      rw [List.range_succ_eq_map]
      simp only [List.map_cons, List.map_map, Function.comp_def, Nat.add_zero,
        Nat.succ_eq_add_one, hidx]
      simp [polylineSegs]

/-- C7: `arc(center, radius, a0, a1, dir)` on a started path appends exactly
`max(3, (int)(|Δ| · radius / kArcTessellationFactor))` polyline segments,
where `Δ` is the raw delta `a1 - a0` wrapped by `+2π` when `dir = 1` and the
raw delta is negative, and by `−2π` when `dir ≠ 1` and the raw delta is
positive; the sweep samples the angles `a0 + (Δ/numSegments)·(k+1)`,
`k = 0 … numSegments−1` (increasing angle steps for positive wrapped delta,
decreasing for negative). -/
theorem C7_arc_flattening :
    ∀ (cosQ sinQ : ℚ → ℚ) (cx cy rad a0 a1 : ℚ) (dir : ℤ) (r : WebGPURenderer),
      r.pathHasStart = true →
      (r.arc cosQ sinQ cx cy rad a0 a1 dir).pathPoints
        = r.pathPoints ++ polylineSegs (r.pathCur ::
            (List.range (arcSegCount (arcDelta dir (a1 - a0)) rad)).map (fun k =>
              ((transformPoint r.currentState (cx, cy)).1 +
                  cosQ (a0 + arcDelta dir (a1 - a0) /
                    ((arcSegCount (arcDelta dir (a1 - a0)) rad : ℕ) : ℚ) *
                    ((k + 1 : ℕ) : ℚ)) * rad,
               (transformPoint r.currentState (cx, cy)).2 +
                  sinQ (a0 + arcDelta dir (a1 - a0) /
                    ((arcSegCount (arcDelta dir (a1 - a0)) rad : ℕ) : ℚ) *
                    ((k + 1 : ℕ) : ℚ)) * rad))) ∧
      (r.arc cosQ sinQ cx cy rad a0 a1 dir).pathPoints.length
        = r.pathPoints.length + 2 * arcSegCount (arcDelta dir (a1 - a0)) rad := by
  intro cosQ sinQ cx cy rad a0 a1 dir r h
  have key : (r.arc cosQ sinQ cx cy rad a0 a1 dir).pathPoints
      = r.pathPoints ++ polylineSegs (r.pathCur ::
          (List.range (arcSegCount (arcDelta dir (a1 - a0)) rad)).map (fun k =>
            ((transformPoint r.currentState (cx, cy)).1 +
                cosQ (a0 + arcDelta dir (a1 - a0) /
                  ((arcSegCount (arcDelta dir (a1 - a0)) rad : ℕ) : ℚ) *
                  ((k + 1 : ℕ) : ℚ)) * rad,
             (transformPoint r.currentState (cx, cy)).2 +
                sinQ (a0 + arcDelta dir (a1 - a0) /
                  ((arcSegCount (arcDelta dir (a1 - a0)) rad : ℕ) : ℚ) *
                  ((k + 1 : ℕ) : ℚ)) * rad))) := by
    simp only [WebGPURenderer.arc, h, if_true]
    rw [pathLoopAppend_points]
    have hidx : ∀ k : ℕ, 1 + k = k + 1 := fun k => by omega
    simp only [arcDelta, arcSegCount, hidx]
  refine ⟨key, ?_⟩
  rw [key]
  simp [polylineSegs_length]

/-- C7 witness: the arc from angle 0 to 1 with dir = +1 and radius 4 on a
started path has wrapped delta 1 and exactly `max(3, (int)(1·4/4)) = 3`
segments. -/
theorem C7_witness :
    ((WebGPURenderer.moveTo 5 6 (WebGPURenderer.beginPath frameStart)).pathHasStart
       = true) ∧
    arcSegCount (arcDelta 1 (1 - 0)) 4 = 3 ∧
    arcDelta 1 (1 - 0) = 1 ∧
    (((WebGPURenderer.moveTo 5 6 (WebGPURenderer.beginPath frameStart)).arc
        (fun _ => 0) (fun _ => 0) 0 0 4 0 1 1).pathPoints.length
      = (WebGPURenderer.moveTo 5 6
          (WebGPURenderer.beginPath frameStart)).pathPoints.length +
        2 * arcSegCount (arcDelta 1 (1 - 0)) 4) :=
  ⟨rfl,
   by norm_num [arcSegCount, arcDelta, ctrunc, kArcTessellationFactor]; rfl
   ,
   by norm_num [arcDelta]
   ,
   (C7_arc_flattening (fun _ => 0) (fun _ => 0) 0 0 4 0 1 1
      (WebGPURenderer.moveTo 5 6 (WebGPURenderer.beginPath frameStart)) rfl).2⟩

/-- Identity matrix application is the identity. -/
theorem applyT_id (p : ℚ × ℚ) : applyT idTransform p = p := by
  simp [applyT, idTransform]

/-- Last element of a list extended by a two-point segment. -/
theorem getLast_append_pair {α : Type} (l : List α) (a b : α) :
    (l ++ [a, b]).getLast? = some b := by
  rw [show l ++ [a, b] = (l ++ [a]) ++ [b] by simp]
  exact List.getLast?_concat _

/-- Invariants kept by `lineTo`: draw state, path start and start flag are
untouched, and the head of a non-empty recorded point list is preserved. -/
theorem lineTo_keeps (a b : ℚ) (p0 : ℚ × ℚ) (s0 : DrawState) (r' : WebGPURenderer)
    (h1 : r'.currentState = s0) (h2 : r'.pathStart = p0)
    (h3 : r'.pathHasStart = true) (h4 : ∃ t, r'.pathPoints = p0 :: t) :
    (r'.lineTo a b).currentState = s0 ∧ (r'.lineTo a b).pathStart = p0 ∧
    (r'.lineTo a b).pathHasStart = true ∧
    ∃ t, (r'.lineTo a b).pathPoints = p0 :: t := by
  obtain ⟨t, ht⟩ := h4
  refine ⟨h1, h2, h3, ⟨t ++ [r'.pathCur, transformPoint r'.currentState (a, b)], ?_⟩⟩
  simp [WebGPURenderer.lineTo, ht, h3]

/-- Invariants kept by `arc` on a started path: draw state, path start and
start flag are untouched and points are only appended. -/
theorem arc_fields (cosQ sinQ : ℚ → ℚ) (cx cy rad a0 a1 : ℚ) (dir : ℤ)
    (r : WebGPURenderer) (h : r.pathHasStart = true) :
    (r.arc cosQ sinQ cx cy rad a0 a1 dir).currentState = r.currentState ∧
    (r.arc cosQ sinQ cx cy rad a0 a1 dir).pathStart = r.pathStart ∧
    (r.arc cosQ sinQ cx cy rad a0 a1 dir).pathHasStart = true ∧
    ∃ l, (r.arc cosQ sinQ cx cy rad a0 a1 dir).pathPoints = r.pathPoints ++ l := by
  simp only [WebGPURenderer.arc, h, if_true]
  exact ⟨(pathLoopAppend_fields _ _ _ _).2.2.1,
    (pathLoopAppend_fields _ _ _ _).2.2.2.1,
    by rw [(pathLoopAppend_fields _ _ _ _).2.2.2.2.1]; exact h,
    ⟨_, pathLoopAppend_points _ _ _ _⟩⟩

/-- Head-preservation form of `arc_fields`. -/
theorem arc_keeps (cosQ sinQ : ℚ → ℚ) (cx cy rad a0 a1 : ℚ) (dir : ℤ)
    (p0 : ℚ × ℚ) (s0 : DrawState) (r' : WebGPURenderer)
    (h1 : r'.currentState = s0) (h2 : r'.pathStart = p0)
    (h3 : r'.pathHasStart = true) (h4 : ∃ t, r'.pathPoints = p0 :: t) :
    (r'.arc cosQ sinQ cx cy rad a0 a1 dir).currentState = s0 ∧
    (r'.arc cosQ sinQ cx cy rad a0 a1 dir).pathStart = p0 ∧
    (r'.arc cosQ sinQ cx cy rad a0 a1 dir).pathHasStart = true ∧
    ∃ t, (r'.arc cosQ sinQ cx cy rad a0 a1 dir).pathPoints = p0 :: t := by
  obtain ⟨hc, hs, hh, l, hpl⟩ := arc_fields cosQ sinQ cx cy rad a0 a1 dir r' h3
  obtain ⟨t, ht⟩ := h4
  exact ⟨hc.trans h1, hs.trans h2, hh, ⟨t ++ l, by rw [hpl, ht]; simp⟩⟩

/-- C8: drawing a rounded rectangle with radius `r > min(w,h)/2` clamps the
effective radius to `min(w,h)/2` (the produced renderer state equals the one
for radius exactly `min(w,h)/2`), and — under the identity current transform —
the resulting path is closed: its first and last recorded points both equal
the clamped start corner `(x + min(r, min(w,h)/2), y)`. -/
theorem C8_roundedRect_clamp_closed :
    ∀ (cosQ sinQ : ℚ → ℚ) (x y w h rad : ℚ) (r : WebGPURenderer),
      r.currentState.transform = idTransform →
      (min w h * 0.5 ≤ rad →
        r.roundedRect cosQ sinQ x y w h rad
          = r.roundedRect cosQ sinQ x y w h (min w h * 0.5)) ∧
      (r.roundedRect cosQ sinQ x y w h rad).pathPoints.head?
        = some (x + min rad (min w h * 0.5), y) ∧
      (r.roundedRect cosQ sinQ x y w h rad).pathPoints.getLast?
        = some (x + min rad (min w h * 0.5), y) := by
  intro cosQ sinQ x y w h rad r htr
  refine ⟨fun hle => ?_, ?_⟩
  · simp [WebGPURenderer.roundedRect, min_eq_right hle, min_self]
  · simp only [WebGPURenderer.roundedRect]
    set rr := min rad (min w h * 0.5) with hdefrr
    set t1 := WebGPURenderer.lineTo (x + w - rr) y
      (WebGPURenderer.moveTo (x + rr) y (WebGPURenderer.beginPath r)) with ht1
    set t2 := WebGPURenderer.arc cosQ sinQ (x + w - rr) (y + rr) rr (-HALF_PI) 0 0 t1
      with ht2
    set t3 := WebGPURenderer.lineTo (x + w) (y + h - rr) t2 with ht3
    set t4 := WebGPURenderer.arc cosQ sinQ (x + w - rr) (y + h - rr) rr 0 HALF_PI 0 t3
      with ht4
    set t5 := WebGPURenderer.lineTo (x + rr) (y + h) t4 with ht5
    set t6 := WebGPURenderer.arc cosQ sinQ (x + rr) (y + h - rr) rr HALF_PI PI 0 t5
      with ht6
    set t7 := WebGPURenderer.lineTo x (y + rr) t6 with ht7
    set t8 := WebGPURenderer.arc cosQ sinQ (x + rr) (y + rr) rr PI (PI * 1.5) 0 t7
      with ht8
    have k1 : t1.currentState = r.currentState ∧ t1.pathStart = (x + rr, y) ∧
        t1.pathHasStart = true ∧ ∃ t, t1.pathPoints = (x + rr, y) :: t := by
      rw [ht1]
      refine ⟨rfl, ?_, rfl, ⟨[(x + w - rr, y)], ?_⟩⟩ <;>
        simp [WebGPURenderer.beginPath, WebGPURenderer.moveTo, WebGPURenderer.lineTo,
          transformPoint, htr, applyT_id]
    have k2 : t2.currentState = r.currentState ∧ t2.pathStart = (x + rr, y) ∧
        t2.pathHasStart = true ∧ ∃ t, t2.pathPoints = (x + rr, y) :: t := by
      rw [ht2]
      exact arc_keeps cosQ sinQ (x + w - rr) (y + rr) rr (-HALF_PI) 0 0
        (x + rr, y) r.currentState t1 k1.1 k1.2.1 k1.2.2.1 k1.2.2.2
    have k3 : t3.currentState = r.currentState ∧ t3.pathStart = (x + rr, y) ∧
        t3.pathHasStart = true ∧ ∃ t, t3.pathPoints = (x + rr, y) :: t := by
      rw [ht3]
      exact lineTo_keeps (x + w) (y + h - rr) (x + rr, y) r.currentState t2
        k2.1 k2.2.1 k2.2.2.1 k2.2.2.2
    have k4 : t4.currentState = r.currentState ∧ t4.pathStart = (x + rr, y) ∧
        t4.pathHasStart = true ∧ ∃ t, t4.pathPoints = (x + rr, y) :: t := by
      rw [ht4]
      exact arc_keeps cosQ sinQ (x + w - rr) (y + h - rr) rr 0 HALF_PI 0
        (x + rr, y) r.currentState t3 k3.1 k3.2.1 k3.2.2.1 k3.2.2.2
    have k5 : t5.currentState = r.currentState ∧ t5.pathStart = (x + rr, y) ∧
        t5.pathHasStart = true ∧ ∃ t, t5.pathPoints = (x + rr, y) :: t := by
      rw [ht5]
      exact lineTo_keeps (x + rr) (y + h) (x + rr, y) r.currentState t4
        k4.1 k4.2.1 k4.2.2.1 k4.2.2.2
    have k6 : t6.currentState = r.currentState ∧ t6.pathStart = (x + rr, y) ∧
        t6.pathHasStart = true ∧ ∃ t, t6.pathPoints = (x + rr, y) :: t := by
      rw [ht6]
      exact arc_keeps cosQ sinQ (x + rr) (y + h - rr) rr HALF_PI PI 0
        (x + rr, y) r.currentState t5 k5.1 k5.2.1 k5.2.2.1 k5.2.2.2
    have k7 : t7.currentState = r.currentState ∧ t7.pathStart = (x + rr, y) ∧
        t7.pathHasStart = true ∧ ∃ t, t7.pathPoints = (x + rr, y) :: t := by
      rw [ht7]
      exact lineTo_keeps x (y + rr) (x + rr, y) r.currentState t6
        k6.1 k6.2.1 k6.2.2.1 k6.2.2.2
    have k8 : t8.currentState = r.currentState ∧ t8.pathStart = (x + rr, y) ∧
        t8.pathHasStart = true ∧ ∃ t, t8.pathPoints = (x + rr, y) :: t := by
      rw [ht8]
      exact arc_keeps cosQ sinQ (x + rr) (y + rr) rr PI (PI * 1.5)
        0 (x + rr, y) r.currentState t7 k7.1 k7.2.1 k7.2.2.1 k7.2.2.2
    obtain ⟨h8c, h8s, h8h, t, h8p⟩ := k8
    have hclose : (t8.closePath).pathPoints
        = ((x + rr, y) :: t) ++ [t8.pathCur, (x + rr, y)] := by
      rw [WebGPURenderer.closePath, if_pos h8h, h8s]
      simp [WebGPURenderer.lineTo, h8p, h8h, transformPoint, h8c, htr, applyT_id]
    rw [hclose]
    constructor
    · rfl
    · exact getLast_append_pair _ _ _

/-- C8 witness: a 4×6 rectangle with requested corner radius 10 (larger than
`min(w,h)/2 = 2`) drawn from the fresh frame state. -/
theorem C8_witness :
    frameStart.currentState.transform = idTransform ∧
    min (4 : ℚ) 6 * 0.5 ≤ 10 ∧
    (frameStart.roundedRect (fun _ => 0) (fun _ => 0) 0 0 4 6 10
       = frameStart.roundedRect (fun _ => 0) (fun _ => 0) 0 0 4 6 (min 4 6 * 0.5)) ∧
    (frameStart.roundedRect (fun _ => 0) (fun _ => 0) 0 0 4 6 10).pathPoints.head?
      = some (0 + min 10 (min (4 : ℚ) 6 * 0.5), 0) ∧
    (frameStart.roundedRect (fun _ => 0) (fun _ => 0) 0 0 4 6 10).pathPoints.getLast?
      = some (0 + min 10 (min (4 : ℚ) 6 * 0.5), 0) :=
  ⟨rfl, by norm_num,
   (C8_roundedRect_clamp_closed (fun _ => 0) (fun _ => 0) 0 0 4 6 10 frameStart
      rfl).1 (by norm_num),
   (C8_roundedRect_clamp_closed (fun _ => 0) (fun _ => 0) 0 0 4 6 10 frameStart
      rfl).2.1,
   (C8_roundedRect_clamp_closed (fun _ => 0) (fun _ => 0) 0 0 4 6 10 frameStart
      rfl).2.2⟩

/-- C9 counterexample: `drawWaveform` with a null data pointer still pushes
vertices (the dark background rectangle is filled before the null check), so
the helper is not a complete no-op. -/
theorem C9_counterexample :
    (frameStart.drawWaveform 0 0 8 4 none 0 false).vertices ≠ [] := by
  norm_num [WebGPURenderer.drawWaveform, WebGPURenderer.fill, WebGPURenderer.rect,
    WebGPURenderer.closePath, WebGPURenderer.lineTo, WebGPURenderer.moveTo,
    WebGPURenderer.beginPath, WebGPURenderer.fillColor, WebGPURenderer.setPipeline,
    WebGPURenderer.flushBatch, WebGPURenderer.fanLoop, transformPoint, applyT,
    idTransform, frameStart, pipeSolid]
  exact List.cons_ne_nil _ _

/-- C9 (amended): with a null data pointer or non-positive sample count,
`drawSpectrum` is a complete silent no-op, while `drawWaveform` and `drawScope`
skip only the sample trace but still draw their static background rectangle
(respectively grid quad); none of them raises an error. -/
theorem C9_null_data_draw_helpers :
    ∀ (x y w h : ℚ) (data : Option (List ℚ)) (count : ℤ) (filled : Bool)
      (r : WebGPURenderer),
      data.isNone ∨ count ≤ 0 →
      r.drawSpectrum x y w h data count = r ∧
      r.drawWaveform x y w h data count filled
        = ((r.fillColor ⟨0.1, 0.1, 0.1, 1⟩).rect x y w h).fill ∧
      r.drawScope x y w h data count
        = (r.fillColor ⟨0, 0.2, 0, 1⟩).drawQuad x y w h pipeScopeGrid := by
  intro x y w h data count filled r hcond
  refine ⟨?_, ?_, ?_⟩ <;>
    simp only [WebGPURenderer.drawSpectrum, WebGPURenderer.drawWaveform,
      WebGPURenderer.drawScope, if_pos hcond]

/-- C9 witness: the amended statement at a null data pointer with positive
count, from the fresh frame state. -/
theorem C9_witness :
    ((none : Option (List ℚ)).isNone ∨ (5 : ℤ) ≤ 0) ∧
    frameStart.drawSpectrum 1 2 3 4 none 5 = frameStart ∧
    frameStart.drawWaveform 1 2 3 4 none 5 false
      = ((frameStart.fillColor ⟨0.1, 0.1, 0.1, 1⟩).rect 1 2 3 4).fill ∧
    frameStart.drawScope 1 2 3 4 none 5
      = (frameStart.fillColor ⟨0, 0.2, 0, 1⟩).drawQuad 1 2 3 4 pipeScopeGrid :=
  ⟨Or.inl rfl,
   (C9_null_data_draw_helpers 1 2 3 4 none 5 false frameStart (Or.inl rfl)).1,
   (C9_null_data_draw_helpers 1 2 3 4 none 5 false frameStart (Or.inl rfl)).2.1,
   (C9_null_data_draw_helpers 1 2 3 4 none 5 false frameStart (Or.inl rfl)).2.2⟩

/-- Transforms agree on scissor-equivalent draw states. -/
theorem coreEq_transform {s1 s2 : DrawState} (h : s1.core = s2.core) :
    s1.transform = s2.transform := congrArg CoreState.transform h

/-- Fill colors agree on scissor-equivalent draw states. -/
theorem coreEq_fillColor {s1 s2 : DrawState} (h : s1.core = s2.core) :
    s1.fillColor = s2.fillColor := congrArg CoreState.fillColor h

/-- Stroke colors agree on scissor-equivalent draw states. -/
theorem coreEq_strokeColor {s1 s2 : DrawState} (h : s1.core = s2.core) :
    s1.strokeColor = s2.strokeColor := congrArg CoreState.strokeColor h

/-- Stroke widths agree on scissor-equivalent draw states. -/
theorem coreEq_strokeWidth {s1 s2 : DrawState} (h : s1.core = s2.core) :
    s1.strokeWidth = s2.strokeWidth := congrArg CoreState.strokeWidth h

/-- Point transformation agrees on scissor-equivalent draw states. -/
theorem coreEq_transformPoint {s1 s2 : DrawState} (h : s1.core = s2.core)
    (p : ℚ × ℚ) : transformPoint s1 p = transformPoint s2 p := by
  simp only [transformPoint]
  rw [coreEq_transform h]

/-- Draw-state-only updates preserve scissor equivalence when their action on
the scissor-independent part is a function of that part. -/
theorem pres_stateOp (f : DrawState → DrawState)
    (hf : ∀ s1 s2 : DrawState, s1.core = s2.core → (f s1).core = (f s2).core)
    {r1 r2 : WebGPURenderer} (h : rEquiv r1 r2) :
    rEquiv { r1 with currentState := f r1.currentState }
           { r2 with currentState := f r2.currentState } := by
  obtain ⟨hv, hstk, hcs, hpp, hps, hpc, hhs, hpl, hsub, hub⟩ := h
  exact ⟨hv, hstk, hf _ _ hcs, hpp, hps, hpc, hhs, hpl, hsub, hub⟩

/-- Scissor equivalence is preserved by `save`. -/
theorem pres_save {r1 r2 : WebGPURenderer} (h : rEquiv r1 r2) :
    rEquiv r1.save r2.save := by
  obtain ⟨hv, hstk, hcs, hpp, hps, hpc, hhs, hpl, hsub, hub⟩ := h
  exact ⟨hv, by simp only [WebGPURenderer.save, List.map_cons, hstk, hcs],
    hcs, hpp, hps, hpc, hhs, hpl, hsub, hub⟩

/-- Scissor equivalence is preserved by `restore`. -/
theorem pres_restore {r1 r2 : WebGPURenderer} (h : rEquiv r1 r2) :
    rEquiv r1.restore r2.restore := by
  obtain ⟨hv, hstk, hcs, hpp, hps, hpc, hhs, hpl, hsub, hub⟩ := h
  rcases e1 : r1.stateStack with _ | ⟨s1, st1⟩ <;>
    rcases e2 : r2.stateStack with _ | ⟨s2, st2⟩
  · simp only [WebGPURenderer.restore, e1, e2]
    exact ⟨hv, hstk, hcs, hpp, hps, hpc, hhs, hpl, hsub, hub⟩
  · rw [e1, e2] at hstk; simp at hstk
  · rw [e1, e2] at hstk; simp at hstk
  · rw [e1, e2] at hstk
    simp only [List.map_cons, List.cons.injEq] at hstk
    simp only [WebGPURenderer.restore, e1, e2]
    exact ⟨hv, hstk.2, hstk.1, hpp, hps, hpc, hhs, hpl, hsub, hub⟩

/-- Scissor equivalence is preserved by `reset`. -/
theorem pres_reset {r1 r2 : WebGPURenderer} (hq : rEquiv r1 r2) :
    rEquiv r1.reset r2.reset :=
  pres_stateOp (fun s =>
      { s with transform := idTransform, fillColor := ⟨1, 1, 1, 1⟩,
               strokeColor := ⟨0, 0, 0, 1⟩, strokeWidth := 1, hasScissor := false })
    (fun s1 s2 hs => by
      simp [core_def, coreEq_transform hs, coreEq_fillColor hs,
        coreEq_strokeColor hs, coreEq_strokeWidth hs]) hq

/-- Scissor equivalence is preserved by `translate`. -/
theorem pres_translate (x y : ℚ) {r1 r2 : WebGPURenderer} (hq : rEquiv r1 r2) :
    rEquiv (r1.translate x y) (r2.translate x y) :=
  pres_stateOp (fun s => { s with transform := translateT x y s.transform })
    (fun s1 s2 hs => by
      simp [core_def, coreEq_transform hs, coreEq_fillColor hs,
        coreEq_strokeColor hs, coreEq_strokeWidth hs]) hq

/-- Scissor equivalence is preserved by `rotate`. -/
theorem pres_rotate (cs sn : ℚ) {r1 r2 : WebGPURenderer} (hq : rEquiv r1 r2) :
    rEquiv (r1.rotate cs sn) (r2.rotate cs sn) :=
  pres_stateOp (fun s => { s with transform := rotateT cs sn s.transform })
    (fun s1 s2 hs => by
      simp [core_def, coreEq_transform hs, coreEq_fillColor hs,
        coreEq_strokeColor hs, coreEq_strokeWidth hs]) hq

/-- Scissor equivalence is preserved by `scale`. -/
theorem pres_scale (x y : ℚ) {r1 r2 : WebGPURenderer} (hq : rEquiv r1 r2) :
    rEquiv (r1.scale x y) (r2.scale x y) :=
  pres_stateOp (fun s => { s with transform := scaleT x y s.transform })
    (fun s1 s2 hs => by
      simp [core_def, coreEq_transform hs, coreEq_fillColor hs,
        coreEq_strokeColor hs, coreEq_strokeWidth hs]) hq

/-- Scissor equivalence is preserved by `resetTransform`. -/
theorem pres_resetTransform {r1 r2 : WebGPURenderer} (hq : rEquiv r1 r2) :
    rEquiv r1.resetTransform r2.resetTransform :=
  pres_stateOp (fun s => { s with transform := idTransform })
    (fun s1 s2 hs => by
      simp [core_def, coreEq_transform hs, coreEq_fillColor hs,
        coreEq_strokeColor hs, coreEq_strokeWidth hs]) hq

/-- Scissor equivalence is preserved by `scissor` (it writes only the scissor
fields). -/
theorem pres_scissor (x y w h : ℚ) {r1 r2 : WebGPURenderer} (hq : rEquiv r1 r2) :
    rEquiv (r1.scissor x y w h) (r2.scissor x y w h) :=
  pres_stateOp (fun s =>
      { s with scissorX := x, scissorY := y, scissorW := w, scissorH := h,
               hasScissor := true })
    (fun s1 s2 hs => by
      simp [core_def, coreEq_transform hs, coreEq_fillColor hs,
        coreEq_strokeColor hs, coreEq_strokeWidth hs]) hq

/-- Scissor equivalence is preserved by `resetScissor`. -/
theorem pres_resetScissor {r1 r2 : WebGPURenderer} (hq : rEquiv r1 r2) :
    rEquiv r1.resetScissor r2.resetScissor :=
  pres_stateOp (fun s => { s with hasScissor := false })
    (fun s1 s2 hs => by
      simp [core_def, coreEq_transform hs, coreEq_fillColor hs,
        coreEq_strokeColor hs, coreEq_strokeWidth hs]) hq

/-- Scissor equivalence is preserved by `fillColor`. -/
theorem pres_fillColor (c : Color) {r1 r2 : WebGPURenderer} (hq : rEquiv r1 r2) :
    rEquiv (r1.fillColor c) (r2.fillColor c) :=
  pres_stateOp (fun s => { s with fillColor := c })
    (fun s1 s2 hs => by
      simp [core_def, coreEq_transform hs, coreEq_fillColor hs,
        coreEq_strokeColor hs, coreEq_strokeWidth hs]) hq

/-- Scissor equivalence is preserved by `strokeColor`. -/
theorem pres_strokeColor (c : Color) {r1 r2 : WebGPURenderer} (hq : rEquiv r1 r2) :
    rEquiv (r1.strokeColor c) (r2.strokeColor c) :=
  pres_stateOp (fun s => { s with strokeColor := c })
    (fun s1 s2 hs => by
      simp [core_def, coreEq_transform hs, coreEq_fillColor hs,
        coreEq_strokeColor hs, coreEq_strokeWidth hs]) hq

/-- Scissor equivalence is preserved by `strokeWidth`. -/
theorem pres_strokeWidth (w : ℚ) {r1 r2 : WebGPURenderer} (hq : rEquiv r1 r2) :
    rEquiv (r1.strokeWidth w) (r2.strokeWidth w) :=
  pres_stateOp (fun s => { s with strokeWidth := w })
    (fun s1 s2 hs => by
      simp [core_def, coreEq_transform hs, coreEq_fillColor hs,
        coreEq_strokeColor hs, coreEq_strokeWidth hs]) hq

/-- Scissor equivalence is preserved by `beginPath`. -/
theorem pres_beginPath {r1 r2 : WebGPURenderer} (h : rEquiv r1 r2) :
    rEquiv r1.beginPath r2.beginPath := by
  obtain ⟨hv, hstk, hcs, hpp, hps, hpc, hhs, hpl, hsub, hub⟩ := h
  exact ⟨hv, hstk, hcs, rfl, hps, hpc, rfl, hpl, hsub, hub⟩

/-- Scissor equivalence is preserved by `moveTo`. -/
theorem pres_moveTo (x y : ℚ) {r1 r2 : WebGPURenderer} (h : rEquiv r1 r2) :
    rEquiv (r1.moveTo x y) (r2.moveTo x y) := by
  obtain ⟨hv, hstk, hcs, hpp, hps, hpc, hhs, hpl, hsub, hub⟩ := h
  have htp := coreEq_transformPoint hcs (x, y)
  exact ⟨hv, hstk, hcs, hpp, htp, htp, rfl, hpl, hsub, hub⟩

/-- Scissor equivalence is preserved by `lineTo`. -/
theorem pres_lineTo (x y : ℚ) {r1 r2 : WebGPURenderer} (h : rEquiv r1 r2) :
    rEquiv (r1.lineTo x y) (r2.lineTo x y) := by
  obtain ⟨hv, hstk, hcs, hpp, hps, hpc, hhs, hpl, hsub, hub⟩ := h
  have htp := coreEq_transformPoint hcs (x, y)
  refine ⟨hv, hstk, hcs, ?_, hps, ?_, hhs, hpl, hsub, hub⟩
  · simp only [WebGPURenderer.lineTo]
    rw [hpp, hpc, hhs, htp]
  · simp only [WebGPURenderer.lineTo]
    rw [htp]

/-- Scissor equivalence is preserved by `closePath`. -/
theorem pres_closePath {r1 r2 : WebGPURenderer} (h : rEquiv r1 r2) :
    rEquiv r1.closePath r2.closePath := by
  have hhs : r1.pathHasStart = r2.pathHasStart := h.2.2.2.2.2.2.1
  have hps : r1.pathStart = r2.pathStart := h.2.2.2.2.1
  cases hB : r1.pathHasStart with
  | false =>
      have hB2 : r2.pathHasStart = false := by rw [← hhs, hB]
      simp only [WebGPURenderer.closePath, hB, hB2, Bool.false_eq_true, if_false]
      exact h
  | true =>
      have hB2 : r2.pathHasStart = true := by rw [← hhs, hB]
      simp only [WebGPURenderer.closePath, hB, hB2, if_true]
      rw [hps]
      exact pres_lineTo _ _ h

/-- Scissor equivalence is preserved by the segment-appending loop. -/
theorem pres_pathLoop (f : ℕ → ℚ × ℚ) :
    ∀ (n i : ℕ) {r1 r2 : WebGPURenderer}, rEquiv r1 r2 →
      rEquiv (WebGPURenderer.pathLoopAppend f n i r1)
             (WebGPURenderer.pathLoopAppend f n i r2) := by
  intro n
  induction n with
  | zero => intro i r1 r2 h; exact h
  | succ n ih =>
      intro i r1 r2 h
      obtain ⟨hv, hstk, hcs, hpp, hps, hpc, hhs, hpl, hsub, hub⟩ := h
      simp only [WebGPURenderer.pathLoopAppend]
      exact ih (i + 1)
        ⟨hv, hstk, hcs, by rw [hpp, hpc], hps, rfl, hhs, hpl, hsub, hub⟩

/-- Scissor equivalence is preserved by `bezierTo`. -/
theorem pres_bezierTo (c1x c1y c2x c2y x y : ℚ) {r1 r2 : WebGPURenderer}
    (h : rEquiv r1 r2) :
    rEquiv (r1.bezierTo c1x c1y c2x c2y x y) (r2.bezierTo c1x c1y c2x c2y x y) := by
  have hcs : r1.currentState.core = r2.currentState.core := h.2.2.1
  have hpc : r1.pathCur = r2.pathCur := h.2.2.2.2.2.1
  simp only [WebGPURenderer.bezierTo]
  rw [hpc, coreEq_transformPoint hcs (c1x, c1y), coreEq_transformPoint hcs (c2x, c2y),
    coreEq_transformPoint hcs (x, y)]
  exact pres_pathLoop _ _ _ h

/-- Scissor equivalence is preserved by `quadTo`. -/
theorem pres_quadTo (cx cy x y : ℚ) {r1 r2 : WebGPURenderer} (h : rEquiv r1 r2) :
    rEquiv (r1.quadTo cx cy x y) (r2.quadTo cx cy x y) := by
  have hpc : r1.pathCur = r2.pathCur := h.2.2.2.2.2.1
  simp only [WebGPURenderer.quadTo]
  rw [hpc]
  exact pres_bezierTo _ _ _ _ _ _ h

/-- Scissor equivalence is preserved by `arc`. -/
theorem pres_arc (cosQ sinQ : ℚ → ℚ) (cx cy rad a0 a1 : ℚ) (dir : ℤ)
    {r1 r2 : WebGPURenderer} (h : rEquiv r1 r2) :
    rEquiv (r1.arc cosQ sinQ cx cy rad a0 a1 dir)
           (r2.arc cosQ sinQ cx cy rad a0 a1 dir) := by
  have hcs : r1.currentState.core = r2.currentState.core := h.2.2.1
  have hhs : r1.pathHasStart = r2.pathHasStart := h.2.2.2.2.2.2.1
  simp only [WebGPURenderer.arc]
  rw [coreEq_transformPoint hcs (cx, cy), hhs]
  cases hB : r2.pathHasStart with
  | false =>
      simp only [hB, Bool.false_eq_true, if_false]
      exact pres_pathLoop _ _ _ (pres_moveTo _ _ h)
  | true =>
      simp only [hB, if_true]
      exact pres_pathLoop _ _ _ h

/-- Scissor equivalence is preserved by `pushVertex`. -/
theorem pres_pushVertex (x y u v : ℚ) (c : Color) {r1 r2 : WebGPURenderer}
    (h : rEquiv r1 r2) :
    rEquiv (r1.pushVertex x y u v c) (r2.pushVertex x y u v c) := by
  obtain ⟨hv, hstk, hcs, hpp, hps, hpc, hhs, hpl, hsub, hub⟩ := h
  exact ⟨by simp only [WebGPURenderer.pushVertex]; rw [hv],
    hstk, hcs, hpp, hps, hpc, hhs, hpl, hsub, hub⟩

/-- Scissor equivalence is preserved by `flushBatch`. -/
theorem pres_flushBatch {r1 r2 : WebGPURenderer} (h : rEquiv r1 r2) :
    rEquiv r1.flushBatch r2.flushBatch := by
  obtain ⟨hv, hstk, hcs, hpp, hps, hpc, hhs, hpl, hsub, hub⟩ := h
  simp only [WebGPURenderer.flushBatch, hv]
  cases hB : r2.vertices.isEmpty with
  | false =>
      simp only [hB, Bool.false_eq_true, if_false]
      exact ⟨rfl, hstk, hcs, hpp, hps, hpc, hhs, hpl, by rw [hsub], hub⟩
  | true =>
      simp only [hB, if_true]
      exact ⟨hv, hstk, hcs, hpp, hps, hpc, hhs, hpl, hsub, hub⟩

/-- Scissor equivalence is preserved by `setPipeline`. -/
theorem pres_setPipeline (p : Pipeline) {r1 r2 : WebGPURenderer} (h : rEquiv r1 r2) :
    rEquiv (r1.setPipeline p) (r2.setPipeline p) := by
  have hpl : r1.currentPipeline = r2.currentPipeline := h.2.2.2.2.2.2.2.1
  simp only [WebGPURenderer.setPipeline, hpl]
  by_cases hB : r2.currentPipeline = p
  · simp only [if_pos hB]
    exact h
  · simp only [if_neg hB]
    obtain ⟨hv, hstk, hcs, hpp, hps, hpc, hhs, hpl2, hsub, hub⟩ := pres_flushBatch h
    exact ⟨hv, hstk, hcs, hpp, hps, hpc, hhs, rfl, hsub, hub⟩

/-- Scissor equivalence is preserved by `fill`. -/
theorem pres_fill {r1 r2 : WebGPURenderer} (hq : rEquiv r1 r2) :
    rEquiv r1.fill r2.fill := by
  simp only [WebGPURenderer.fill]
  obtain ⟨hv, hstk, hcs, hpp, hps, hpc, hhs, hpl, hsub, hub⟩ :=
    pres_setPipeline pipeSolid hq
  rw [hpp, coreEq_fillColor hcs]
  by_cases hB : (r2.setPipeline pipeSolid).pathPoints.length < 2
  · simp only [if_pos hB]
    exact ⟨hv, hstk, hcs, hpp, hps, hpc, hhs, hpl, hsub, hub⟩
  · simp only [if_neg hB]
    exact ⟨by rw [hv], hstk, hcs, rfl, hps, hpc, hhs, hpl, hsub, hub⟩

/-- Scissor equivalence is preserved by `stroke`. -/
theorem pres_stroke {r1 r2 : WebGPURenderer} (hq : rEquiv r1 r2) :
    rEquiv r1.stroke r2.stroke := by
  simp only [WebGPURenderer.stroke]
  obtain ⟨hv, hstk, hcs, hpp, hps, hpc, hhs, hpl, hsub, hub⟩ :=
    pres_setPipeline pipeStroke hq
  rw [hpp, coreEq_strokeColor hcs, coreEq_strokeWidth hcs]
  cases hB : (r2.setPipeline pipeStroke).pathPoints.isEmpty with
  | false =>
      simp only [hB, Bool.false_eq_true, if_false]
      exact ⟨by rw [hv], hstk, hcs, rfl, hps, hpc, hhs, hpl, hsub, hub⟩
  | true =>
      simp only [hB, if_true]
      exact ⟨hv, hstk, hcs, rfl, hps, hpc, hhs, hpl, hsub, rfl⟩

/-- Scissor equivalence is preserved by `drawQuad`. -/
theorem pres_drawQuad (x y w h : ℚ) (p : Pipeline) {r1 r2 : WebGPURenderer}
    (hq : rEquiv r1 r2) :
    rEquiv (r1.drawQuad x y w h p) (r2.drawQuad x y w h p) := by
  simp only [WebGPURenderer.drawQuad]
  obtain ⟨hv, hstk, hcs, hpp, hps, hpc, hhs, hpl, hsub, hub⟩ :=
    pres_setPipeline p hq
  rw [coreEq_transformPoint hcs (x, y), coreEq_transformPoint hcs (x + w, y),
    coreEq_transformPoint hcs (x + w, y + h), coreEq_transformPoint hcs (x, y + h),
    coreEq_fillColor hcs]
  exact ⟨by rw [hv], hstk, hcs, hpp, hps, hpc, hhs, hpl, hsub, hub⟩

/-- Scissor equivalence is preserved by a fold whose step preserves it. -/
theorem pres_foldl {α : Type} (f : WebGPURenderer → α → WebGPURenderer)
    (hf : ∀ (a : α) (r1 r2 : WebGPURenderer), rEquiv r1 r2 → rEquiv (f r1 a) (f r2 a)) :
    ∀ (l : List α) (r1 r2 : WebGPURenderer), rEquiv r1 r2 →
      rEquiv (l.foldl f r1) (l.foldl f r2) := by
  intro l
  induction l with
  | nil => intro r1 r2 h; exact h
  | cons a rest ih => intro r1 r2 h; exact ih _ _ (hf a _ _ h)

/-- Scissor equivalence is preserved by the trace loop. -/
theorem pres_traceLoop (d : List ℚ) (count : ℤ) (x y w h : ℚ)
    {r1 r2 : WebGPURenderer} (hq : rEquiv r1 r2) :
    rEquiv (WebGPURenderer.traceLoop d count x y w h r1)
           (WebGPURenderer.traceLoop d count x y w h r2) := by
  simp only [WebGPURenderer.traceLoop]
  refine pres_foldl _ ?_ _ _ _ hq
  intro i s1 s2 h'
  by_cases hB : i = 0
  · simp only [if_pos hB]
    exact pres_moveTo _ _ h'
  · simp only [if_neg hB]
    exact pres_lineTo _ _ h'

/-- Scissor equivalence is preserved by `rect`. -/
theorem pres_rect (x y w h : ℚ) {r1 r2 : WebGPURenderer} (hq : rEquiv r1 r2) :
    rEquiv (r1.rect x y w h) (r2.rect x y w h) :=
  pres_closePath (pres_lineTo _ _ (pres_lineTo _ _ (pres_lineTo _ _
    (pres_moveTo _ _ (pres_beginPath hq)))))

/-- Scissor equivalence is preserved by `roundedRect`. -/
theorem pres_roundedRect (cosQ sinQ : ℚ → ℚ) (x y w h rad : ℚ)
    {r1 r2 : WebGPURenderer} (hq : rEquiv r1 r2) :
    rEquiv (r1.roundedRect cosQ sinQ x y w h rad)
           (r2.roundedRect cosQ sinQ x y w h rad) :=
  pres_closePath (pres_arc _ _ _ _ _ _ _ _ (pres_lineTo _ _
    (pres_arc _ _ _ _ _ _ _ _ (pres_lineTo _ _
      (pres_arc _ _ _ _ _ _ _ _ (pres_lineTo _ _
        (pres_arc _ _ _ _ _ _ _ _ (pres_lineTo _ _
          (pres_moveTo _ _ (pres_beginPath hq))))))))))

/-- Scissor equivalence is preserved by `circle`. -/
theorem pres_circle (cosQ sinQ : ℚ → ℚ) (cx cy rad : ℚ)
    {r1 r2 : WebGPURenderer} (hq : rEquiv r1 r2) :
    rEquiv (r1.circle cosQ sinQ cx cy rad) (r2.circle cosQ sinQ cx cy rad) :=
  pres_closePath (pres_arc _ _ _ _ _ _ _ _ (pres_beginPath hq))

/-- Scissor equivalence is preserved by `line`. -/
theorem pres_line (x1 y1 x2 y2 : ℚ) {r1 r2 : WebGPURenderer} (hq : rEquiv r1 r2) :
    rEquiv (r1.line x1 y1 x2 y2) (r2.line x1 y1 x2 y2) :=
  pres_stroke (pres_lineTo _ _ (pres_moveTo _ _ (pres_beginPath hq)))

/-- Scissor equivalence is preserved by `drawWaveform`. -/
theorem pres_drawWaveform (x y w h : ℚ) (data : Option (List ℚ)) (count : ℤ)
    (filled : Bool) {r1 r2 : WebGPURenderer} (hq : rEquiv r1 r2) :
    rEquiv (r1.drawWaveform x y w h data count filled)
           (r2.drawWaveform x y w h data count filled) := by
  simp only [WebGPURenderer.drawWaveform]
  have hA : rEquiv (((r1.fillColor ⟨0.1, 0.1, 0.1, 1⟩).rect x y w h).fill)
      (((r2.fillColor ⟨0.1, 0.1, 0.1, 1⟩).rect x y w h).fill) :=
    pres_fill (pres_rect _ _ _ _ (pres_fillColor _ hq))
  by_cases hB : data.isNone ∨ count ≤ 0
  · simp only [if_pos hB]
    exact hA
  · simp only [if_neg hB]
    rw [coreEq_strokeColor hA.2.2.1]
    exact pres_stroke (pres_traceLoop _ _ _ _ _ _
      (pres_beginPath (pres_fillColor _ hA)))

/-- Scissor equivalence is preserved by `drawSpectrum`. -/
theorem pres_drawSpectrum (x y w h : ℚ) (data : Option (List ℚ)) (count : ℤ)
    {r1 r2 : WebGPURenderer} (hq : rEquiv r1 r2) :
    rEquiv (r1.drawSpectrum x y w h data count)
           (r2.drawSpectrum x y w h data count) := by
  simp only [WebGPURenderer.drawSpectrum]
  by_cases hB : data.isNone ∨ count ≤ 0
  · simp only [if_pos hB]
    exact hq
  · simp only [if_neg hB]
    refine pres_foldl _ ?_ _ _ _ hq
    intro i s1 s2 h'
    exact pres_drawQuad _ _ _ _ _ (pres_drawQuad _ _ _ _ _ (pres_fillColor _ h'))

/-- Scissor equivalence is preserved by `drawScope`. -/
theorem pres_drawScope (x y w h : ℚ) (data : Option (List ℚ)) (count : ℤ)
    {r1 r2 : WebGPURenderer} (hq : rEquiv r1 r2) :
    rEquiv (r1.drawScope x y w h data count)
           (r2.drawScope x y w h data count) := by
  simp only [WebGPURenderer.drawScope]
  have hA : rEquiv ((r1.fillColor ⟨0, 0.2, 0, 1⟩).drawQuad x y w h pipeScopeGrid)
      ((r2.fillColor ⟨0, 0.2, 0, 1⟩).drawQuad x y w h pipeScopeGrid) :=
    pres_drawQuad _ _ _ _ _ (pres_fillColor _ hq)
  by_cases hB : data.isNone ∨ count ≤ 0
  · simp only [if_pos hB]
    exact hA
  · simp only [if_neg hB]
    exact pres_stroke (pres_strokeColor _ (pres_traceLoop _ _ _ _ _ _
      (pres_beginPath hA)))

/-- Scissor equivalence is preserved by `endFrame`. -/
theorem pres_endFrame {r1 r2 : WebGPURenderer} (hq : rEquiv r1 r2) :
    rEquiv r1.endFrame r2.endFrame :=
  pres_flushBatch hq

/-- Scissor equivalence is preserved by every drawing call. -/
theorem pres_exec (cosQ sinQ : ℚ → ℚ) (c : Cmd) {r1 r2 : WebGPURenderer}
    (hq : rEquiv r1 r2) :
    rEquiv (exec cosQ sinQ c r1) (exec cosQ sinQ c r2) := by
  cases c with
  | save => exact pres_save hq
  | restore => exact pres_restore hq
  | reset => exact pres_reset hq
  | translate x y => exact pres_translate x y hq
  | rotate a => exact pres_rotate _ _ hq
  | scale x y => exact pres_scale x y hq
  | resetTransform => exact pres_resetTransform hq
  | scissor x y w h => exact pres_scissor x y w h hq
  | resetScissor => exact pres_resetScissor hq
  | fillColor c => exact pres_fillColor c hq
  | strokeColor c => exact pres_strokeColor c hq
  | strokeWidth w => exact pres_strokeWidth w hq
  | beginPath => exact pres_beginPath hq
  | moveTo x y => exact pres_moveTo x y hq
  | lineTo x y => exact pres_lineTo x y hq
  | closePath => exact pres_closePath hq
  | bezierTo c1x c1y c2x c2y x y => exact pres_bezierTo c1x c1y c2x c2y x y hq
  | quadTo cx cy x y => exact pres_quadTo cx cy x y hq
  | arc cx cy rad a0 a1 dir => exact pres_arc cosQ sinQ cx cy rad a0 a1 dir hq
  | fill => exact pres_fill hq
  | stroke => exact pres_stroke hq
  | rect x y w h => exact pres_rect x y w h hq
  | roundedRect x y w h rad => exact pres_roundedRect cosQ sinQ x y w h rad hq
  | circle cx cy rad => exact pres_circle cosQ sinQ cx cy rad hq
  | line x1 y1 x2 y2 => exact pres_line x1 y1 x2 y2 hq
  | drawQuad x y w h p => exact pres_drawQuad x y w h p hq
  | drawWaveform x y w h data count filled =>
      exact pres_drawWaveform x y w h data count filled hq
  | drawSpectrum x y w h data count => exact pres_drawSpectrum x y w h data count hq
  | drawScope x y w h data count => exact pres_drawScope x y w h data count hq
  | setPipeline p => exact pres_setPipeline p hq
  | endFrame => exact pres_endFrame hq

/-- Scissor equivalence is preserved by every drawing sequence. -/
theorem pres_execList (cosQ sinQ : ℚ → ℚ) (cmds : List Cmd)
    {r1 r2 : WebGPURenderer} (hq : rEquiv r1 r2) :
    rEquiv (execList cosQ sinQ cmds r1) (execList cosQ sinQ cmds r2) :=
  pres_foldl _ (fun c s1 s2 h' => pres_exec cosQ sinQ c h') cmds r1 r2 hq

/-- C10: the scissor state is write-only — for any two renderer states that
differ only in the scissor rect and flag (of the current draw state and of
every saved stack entry), running the same draw-call sequence produces
identical vertex batches and identical numbers of GPU draw submissions. -/
theorem C10_scissor_noninterference :
    ∀ (cosQ sinQ : ℚ → ℚ) (cmds : List Cmd) (r1 r2 : WebGPURenderer),
      rEquiv r1 r2 →
      (execList cosQ sinQ cmds r1).vertices = (execList cosQ sinQ cmds r2).vertices ∧
      (execList cosQ sinQ cmds r1).submissions
        = (execList cosQ sinQ cmds r2).submissions := by
  intro cosQ sinQ cmds r1 r2 hq
  have h' := pres_execList cosQ sinQ cmds hq
  exact ⟨h'.1, h'.2.2.2.2.2.2.2.2.1⟩

/-- C10 witness: the fresh frame and the same state with a scissor rect set,
running a scissor change, a filled rectangle and the end-of-frame flush. -/
theorem C10_witness :
    rEquiv frameStart scissorDemo ∧
    ((execList id id [Cmd.scissor 9 9 9 9, Cmd.rect 0 0 4 4, Cmd.fill, Cmd.endFrame]
        frameStart).vertices
      = (execList id id [Cmd.scissor 9 9 9 9, Cmd.rect 0 0 4 4, Cmd.fill, Cmd.endFrame]
        scissorDemo).vertices) ∧
    ((execList id id [Cmd.scissor 9 9 9 9, Cmd.rect 0 0 4 4, Cmd.fill, Cmd.endFrame]
        frameStart).submissions
      = (execList id id [Cmd.scissor 9 9 9 9, Cmd.rect 0 0 4 4, Cmd.fill, Cmd.endFrame]
        scissorDemo).submissions) :=
  ⟨⟨rfl, rfl, rfl, rfl, rfl, rfl, rfl, rfl, rfl, rfl⟩,
   (C10_scissor_noninterference id id
      [Cmd.scissor 9 9 9 9, Cmd.rect 0 0 4 4, Cmd.fill, Cmd.endFrame]
      frameStart scissorDemo
      ⟨rfl, rfl, rfl, rfl, rfl, rfl, rfl, rfl, rfl, rfl⟩).1,
   (C10_scissor_noninterference id id
      [Cmd.scissor 9 9 9 9, Cmd.rect 0 0 4 4, Cmd.fill, Cmd.endFrame]
      frameStart scissorDemo
      ⟨rfl, rfl, rfl, rfl, rfl, rfl, rfl, rfl, rfl, rfl⟩).2⟩
